import Mathlib

/-! The C math library: `cml.h`, `sf_math.h`, `sf_math.hpp`.

A shallow embedding of the random-number section of `src/cml.h`
(lines 901-1068): the scalar generator `cml_math_rand`, the two-lane
generator `cml_math_randx2`, the four-lane generator `cml_math_randx4`
and their floating-point variants; of the type-generic wrappers and some
vector functions of `src/cml.h`; and of some utilities of `src/sf_math.h`
and `src/sf_math.hpp`.

Conventions.
* A `u64` is a natural number below `2^64`; every operation that can
  overflow in C reduces its result modulo `2^64` explicitly.
* A global array that a C function mutates (`seed`, `seedx2`, `seedx4`)
  is passed in as a value and returned, updated, next to the result.
* A shift count is the non-negative `i32` value that the caller passes;
  `64 - k` is truncated subtraction, which is the C value for `k ≤ 64`.
* A finite `double` is the rational number it denotes.
-/

namespace Cml

/-! ## Machine words -/

/-- The number of `u64` values, `2^64`. -/
def U64_SIZE : Nat := 2 ^ 64

/-- The C constant `UINT64_MAX` of `<stdint.h>`. -/
def UINT64_MAX : Nat := 2 ^ 64 - 1

/-- The C expression `x << k` on a `u64`: the bits shifted past bit 63 are lost. -/
def shl64 (x k : Nat) : Nat := (x <<< k) % U64_SIZE

/-- The C expression `x >> k` on a `u64` (a logical shift). -/
def shr64 (x k : Nat) : Nat := x >>> k

/-- The C expression `a * b` on `u64` operands. -/
def mul64 (a b : Nat) : Nat := (a * b) % U64_SIZE

/-- The C expression `a + b` on `u64` operands. -/
def add64 (a b : Nat) : Nat := (a + b) % U64_SIZE

/-- The value of a 64-bit pattern read as a signed `long long`. -/
def i64_of_bits (x : Nat) : Int := if x < 2 ^ 63 then (x : Int) else (x : Int) - 2 ^ 64

/-- The 64-bit pattern of a signed value (two's complement). -/
def bits_of_i64 (v : Int) : Nat := (v % 2 ^ 64).toNat

/-- The value of a 32-bit pattern read as a signed `int`. -/
def i32_of_bits (x : Nat) : Int := if x < 2 ^ 31 then (x : Int) else (x : Int) - 2 ^ 32

/-! ## Scalar version (`cml.h` 905-948) -/

/-- The array `u64 seed[4]`, the state of the scalar generator. -/
structure Seed where
  s0 : Nat
  s1 : Nat
  s2 : Nat
  s3 : Nat
  deriving DecidableEq, Repr

/-- The initial value `static u64 seed[4] = {1, 2, 3, 4}`. -/
def seed : Seed := ⟨1, 2, 3, 4⟩

/-- Every word of the state is a `u64`. -/
def Seed.wf (s : Seed) : Prop :=
  s.s0 < U64_SIZE ∧ s.s1 < U64_SIZE ∧ s.s2 < U64_SIZE ∧ s.s3 < U64_SIZE

instance (s : Seed) : Decidable s.wf := by
  unfold Seed.wf; infer_instance

/-- The function `rotl` of `cml.h` 916-919:
`return (x << k) | (x >> (64 - k));` on a `u64`. -/
def rotl (x : Nat) (k : Nat) : Nat := shl64 x k ||| shr64 x (64 - k)

/-- The statements of `cml_math_rand` before its `return` (`cml.h` 924-931):
the local `result` and the updated `seed`. -/
def rand_step (s : Seed) : Nat × Seed :=
  let result := mul64 (rotl (mul64 s.s1 5) 7) 9
  let t := shl64 s.s1 17
  let s := { s with s2 := s.s2 ^^^ s.s0 }
  let s := { s with s3 := s.s3 ^^^ s.s1 }
  let s := { s with s1 := s.s1 ^^^ s.s2 }
  let s := { s with s0 := s.s0 ^^^ s.s3 }
  let s := { s with s2 := s.s2 ^^^ t }
  let s := { s with s3 := rotl s.s3 45 }
  (result, s)

/-- The function `cml_math_rand` of `cml.h` 921-933: the returned `u64`
and the state it leaves. -/
def cml_math_rand (s : Seed) : Nat × Seed := rand_step s

/-! ## Doubles

A finite `double` is the rational it denotes.  The conversions and
operations below round to nearest, ties to even, with a 53-bit
significand; the exponent range is not bounded, which is exact for the
magnitudes that occur here (between `2^-64` and `2^64`). -/

/-- Rounding of a rational to the nearest integer, ties to the even one. -/
def round_half_even (q : ℚ) : Int :=
  let f := ⌊q⌋
  let r := q - f
  if r < 1 / 2 then f
  else if 1 / 2 < r then f + 1
  else if f % 2 = 0 then f else f + 1

/-- Rounding of a rational to the nearest `double` (53-bit significand,
round to nearest, ties to even). -/
def f64_round (q : ℚ) : ℚ :=
  if q = 0 then 0
  else
    let e := Int.log 2 |q| - 52
    (round_half_even (q / (2 : ℚ) ^ e) : ℚ) * (2 : ℚ) ^ e

/-- The C conversion `(f64)x` of a `u64`. -/
def f64_of_u64 (x : Nat) : ℚ := f64_round (x : ℚ)

/-- The C conversion `(f64)x` of a signed 64-bit integer. -/
def f64_of_i64 (v : Int) : ℚ := f64_round (v : ℚ)

/-- The C conversion of a signed 32-bit integer to `double`, as value. -/
def f64_of_i32 (v : Int) : ℚ := f64_round (v : ℚ)

/-- The C expression `a / b` on doubles, `b` nonzero. -/
def f64_div (a b : ℚ) : ℚ := f64_round (a / b)

/-- The C expression `a * b` on doubles. -/
def f64_mul (a b : ℚ) : ℚ := f64_round (a * b)

/-- The function `cml_math_rand_f64` of `cml.h` 935-948, statement by
statement; it ends with `return (f64)result / (f64)UINT64_MAX;`. -/
def cml_math_rand_f64 (s : Seed) : ℚ × Seed :=
  let result := mul64 (rotl (mul64 s.s1 5) 7) 9
  let t := shl64 s.s1 17
  let s := { s with s2 := s.s2 ^^^ s.s0 }
  let s := { s with s3 := s.s3 ^^^ s.s1 }
  let s := { s with s1 := s.s1 ^^^ s.s2 }
  let s := { s with s0 := s.s0 ^^^ s.s3 }
  let s := { s with s2 := s.s2 ^^^ t }
  let s := { s with s3 := rotl s.s3 45 }
  (f64_div (f64_of_u64 result) (f64_of_u64 UINT64_MAX), s)

/-! ## Two-lane version (`cml.h` 954-1001)

The intrinsics are those of the SIMDe headers that `cml.h` includes; each
is modelled by the operation that the Intel intrinsics guide documents for
it.  A `simde__m128i` is shown as its two 64-bit lanes, element 0 first, as
in the initialiser `{1, 2}`. -/

/-- A 128-bit integer vector: two 64-bit lanes. -/
structure simde__m128i where
  e0 : Nat
  e1 : Nat
  deriving DecidableEq, Repr

/-- A 128-bit vector of two doubles. -/
structure simde__m128d where
  d0 : ℚ
  d1 : ℚ
  deriving DecidableEq

/-- The intrinsic `_mm_set_epi64x(e1, e0)`: the last argument is element 0. -/
def simde_mm_set_epi64x (e1 e0 : Nat) : simde__m128i := ⟨e0 % U64_SIZE, e1 % U64_SIZE⟩

/-- The intrinsic `_mm_mul_epu32`: in each 64-bit lane, the product of the
low 32 bits of the two operands, as an unsigned 64-bit integer. -/
def simde_mm_mul_epu32 (a b : simde__m128i) : simde__m128i :=
  ⟨(a.e0 % 2 ^ 32) * (b.e0 % 2 ^ 32), (a.e1 % 2 ^ 32) * (b.e1 % 2 ^ 32)⟩

/-- The intrinsic `_mm_slli_epi64`: each lane shifted left by the immediate,
zero when the immediate exceeds 63. -/
def simde_mm_slli_epi64 (a : simde__m128i) (imm8 : Nat) : simde__m128i :=
  if imm8 > 63 then ⟨0, 0⟩ else ⟨shl64 a.e0 imm8, shl64 a.e1 imm8⟩

/-- The intrinsic `_mm_srli_epi64`: each lane shifted right by the immediate,
zero when the immediate exceeds 63. -/
def simde_mm_srli_epi64 (a : simde__m128i) (imm8 : Nat) : simde__m128i :=
  if imm8 > 63 then ⟨0, 0⟩ else ⟨shr64 a.e0 imm8, shr64 a.e1 imm8⟩

/-- The intrinsic `_mm_sll_epi64`: each lane shifted left by the low 64
bits of `count`, zero when that count exceeds 63. -/
def simde_mm_sll_epi64 (a count : simde__m128i) : simde__m128i :=
  if count.e0 > 63 then ⟨0, 0⟩ else ⟨shl64 a.e0 count.e0, shl64 a.e1 count.e0⟩

/-- The intrinsic `_mm_srl_epi64`: each lane shifted right by the low 64
bits of `count`, zero when that count exceeds 63. -/
def simde_mm_srl_epi64 (a count : simde__m128i) : simde__m128i :=
  if count.e0 > 63 then ⟨0, 0⟩ else ⟨shr64 a.e0 count.e0, shr64 a.e1 count.e0⟩

/-- The intrinsic `_mm_xor_si128`. -/
def simde_mm_xor_si128 (a b : simde__m128i) : simde__m128i := ⟨a.e0 ^^^ b.e0, a.e1 ^^^ b.e1⟩

/-- The intrinsic `_mm_or_si128`. -/
def simde_mm_or_si128 (a b : simde__m128i) : simde__m128i := ⟨a.e0 ||| b.e0, a.e1 ||| b.e1⟩

/-- The intrinsic `_mm_cvtepi32_pd`: the two lowest packed signed 32-bit
integers of `a` (bits 31:0 and bits 63:32, both inside 64-bit lane 0),
each converted to a double. -/
def simde_mm_cvtepi32_pd (a : simde__m128i) : simde__m128d :=
  ⟨f64_of_i32 (i32_of_bits (a.e0 % 2 ^ 32)), f64_of_i32 (i32_of_bits (a.e0 / 2 ^ 32 % 2 ^ 32))⟩

/-- The array `simde__m128i seedx2[2]`, the state of the two-lane generator. -/
structure Seedx2 where
  g0 : simde__m128i
  g1 : simde__m128i
  deriving DecidableEq, Repr

/-- The initial value `static simde__m128i seedx2[2] = {{1,2}, {3,4}}`. -/
def seedx2 : Seedx2 := ⟨⟨1, 2⟩, ⟨3, 4⟩⟩

/-- Every lane of the state is a `u64`. -/
def Seedx2.wf (s : Seedx2) : Prop :=
  s.g0.e0 < U64_SIZE ∧ s.g0.e1 < U64_SIZE ∧ s.g1.e0 < U64_SIZE ∧ s.g1.e1 < U64_SIZE

instance (s : Seedx2) : Decidable s.wf := by
  unfold Seedx2.wf; infer_instance

/-- The function `rotlx2` of `cml.h` 962-969. -/
def rotlx2 (x : simde__m128i) (k : Nat) : simde__m128i :=
  let k_mask := simde_mm_set_epi64x k k
  let rot_mask := simde_mm_set_epi64x (64 - k) (64 - k)
  simde_mm_or_si128 (simde_mm_sll_epi64 x k_mask) (simde_mm_srl_epi64 x rot_mask)

/-- The statements of `cml_math_randx2` before its `return` (`cml.h` 974-982):
the local `result` and the updated `seedx2`. -/
def randx2_step (s : Seedx2) : simde__m128i × Seedx2 :=
  let result := simde_mm_mul_epu32 s.g1 (simde_mm_set_epi64x 5 9)
  let t := simde_mm_slli_epi64 s.g1 17
  let s := { s with g0 := simde_mm_xor_si128 s.g0 s.g1 }
  let s := { s with g1 := simde_mm_xor_si128 s.g1 s.g0 }
  let s := { s with g0 := simde_mm_xor_si128 s.g0 s.g1 }
  let s := { s with g1 := simde_mm_xor_si128 s.g1 s.g0 }
  let s := { s with g0 := simde_mm_xor_si128 s.g0 t }
  let s := { s with g1 := rotlx2 s.g1 45 }
  (result, s)

/-- The function `cml_math_randx2` of `cml.h` 971-984. -/
def cml_math_randx2 (s : Seedx2) : simde__m128i × Seedx2 := randx2_step s

/-- The function `cml_math_randx2_f64` of `cml.h` 986-1001, statement by
statement; it ends with
`return simde_mm_cvtepi32_pd(simde_mm_srli_epi64(result, 32));`. -/
def cml_math_randx2_f64 (s : Seedx2) : simde__m128d × Seedx2 :=
  let result := simde_mm_mul_epu32 s.g1 (simde_mm_set_epi64x 5 9)
  let t := simde_mm_slli_epi64 s.g1 17
  let s := { s with g0 := simde_mm_xor_si128 s.g0 s.g1 }
  let s := { s with g1 := simde_mm_xor_si128 s.g1 s.g0 }
  let s := { s with g0 := simde_mm_xor_si128 s.g0 s.g1 }
  let s := { s with g1 := simde_mm_xor_si128 s.g1 s.g0 }
  let s := { s with g0 := simde_mm_xor_si128 s.g0 t }
  let s := { s with g1 := rotlx2 s.g1 45 }
  (simde_mm_cvtepi32_pd (simde_mm_srli_epi64 result 32), s)

/-! ## Four-lane version (`cml.h` 1003-1068)

A `simde__m256i` is shown as its four 64-bit lanes, element 0 first, as in
the initialiser `{1, 2, 3, 4}`.  Under GCC and Clang the element type of
the vector is a signed 64-bit integer, so `x[i] >> n` in `rotlx4` is an
arithmetic shift there. -/

/-- A 256-bit integer vector: four 64-bit lanes. -/
structure simde__m256i where
  e0 : Nat
  e1 : Nat
  e2 : Nat
  e3 : Nat
  deriving DecidableEq, Repr

/-- A 256-bit vector of four doubles. -/
structure simde__m256d where
  d0 : ℚ
  d1 : ℚ
  d2 : ℚ
  d3 : ℚ
  deriving DecidableEq

/-- Lane `i` of a `simde__m256i` (`x[i]`), lane 3 for any `i` past 2. -/
def simde__m256i.lane (x : simde__m256i) (i : Nat) : Nat :=
  match i with
  | 0 => x.e0
  | 1 => x.e1
  | 2 => x.e2
  | _ => x.e3

/-- A vector built lane by lane. -/
def simde__m256i.map (f : Nat → Nat) (x : simde__m256i) : simde__m256i :=
  ⟨f x.e0, f x.e1, f x.e2, f x.e3⟩

/-- A vector built lane by lane from two vectors. -/
def simde__m256i.zip (f : Nat → Nat → Nat) (x y : simde__m256i) : simde__m256i :=
  ⟨f x.e0 y.e0, f x.e1 y.e1, f x.e2 y.e2, f x.e3 y.e3⟩

/-- The intrinsic `_mm256_add_epi64`: lane-wise sum modulo `2^64`. -/
def simde_mm256_add_epi64 (a b : simde__m256i) : simde__m256i := a.zip add64 b

/-- The intrinsic `_mm256_xor_si256`. -/
def simde_mm256_xor_si256 (a b : simde__m256i) : simde__m256i := a.zip (· ^^^ ·) b

/-- The intrinsic `_mm256_or_si256`. -/
def simde_mm256_or_si256 (a b : simde__m256i) : simde__m256i := a.zip (· ||| ·) b

/-- The intrinsic `_mm256_slli_epi64`: each lane shifted left by the
immediate, zero when the immediate exceeds 63. -/
def simde_mm256_slli_epi64 (a : simde__m256i) (imm8 : Nat) : simde__m256i :=
  if imm8 > 63 then ⟨0, 0, 0, 0⟩ else a.map (shl64 · imm8)

/-- The intrinsic `_mm256_srli_epi64`: each lane shifted right by the
immediate, zero when the immediate exceeds 63. -/
def simde_mm256_srli_epi64 (a : simde__m256i) (imm8 : Nat) : simde__m256i :=
  if imm8 > 63 then ⟨0, 0, 0, 0⟩ else a.map (shr64 · imm8)

/-- The compilers that `cml.h` accepts; `rotlx4` has one body for each family. -/
inductive Compiler where
  | msvc
  | gnuc
  deriving DecidableEq, Repr

/-- The C expression `x >> n` on a signed 64-bit element (an arithmetic
shift under GCC and Clang), on bit patterns. -/
def sar64 (x n : Nat) : Nat := bits_of_i64 (i64_of_bits x >>> n)

/-- One iteration of the loop of `rotlx4` under GCC and Clang:
`(x[i] << k) | (x[i] >> (64 - k))` on a signed 64-bit element. -/
def rotlx4_lane (x k : Nat) : Nat := shl64 x k ||| sar64 x (64 - k)

/-- The function `rotlx4` of `cml.h` 1007-1020, with its two bodies. -/
def rotlx4 (c : Compiler) (x : simde__m256i) (k : Nat) : simde__m256i :=
  match c with
  | .msvc => simde_mm256_or_si256 (simde_mm256_slli_epi64 x k) (simde_mm256_srli_epi64 x (64 - k))
  | .gnuc => x.map (rotlx4_lane · k)

/-- The array `simde__m256i seedx4[4]`, the state of the four-lane generator. -/
structure Seedx4 where
  g0 : simde__m256i
  g1 : simde__m256i
  g2 : simde__m256i
  g3 : simde__m256i
  deriving DecidableEq, Repr

/-- The initial value of `seedx4` (`cml.h` 1023-1026). -/
def seedx4 : Seedx4 := ⟨⟨1, 2, 3, 4⟩, ⟨5, 6, 7, 8⟩, ⟨9, 10, 11, 12⟩, ⟨13, 14, 15, 16⟩⟩

/-- The four words that lane `i` holds, one per element of `seedx4`. -/
def Seedx4.lane (s : Seedx4) (i : Nat) : Seed :=
  ⟨s.g0.lane i, s.g1.lane i, s.g2.lane i, s.g3.lane i⟩

/-- The state whose element `g` holds the word `g` of `S` in all four lanes. -/
def Seedx4.replicate (S : Seed) : Seedx4 :=
  ⟨⟨S.s0, S.s0, S.s0, S.s0⟩, ⟨S.s1, S.s1, S.s1, S.s1⟩,
   ⟨S.s2, S.s2, S.s2, S.s2⟩, ⟨S.s3, S.s3, S.s3, S.s3⟩⟩

/-- The statements of `cml_math_randx4` before its `return`
(`cml.h` 1032-1038): the local `result` and the updated `seedx4`. -/
def randx4_step (c : Compiler) (s : Seedx4) : simde__m256i × Seedx4 :=
  let result := simde_mm256_add_epi64 s.g0 s.g3
  let t := simde_mm256_xor_si256 s.g1 s.g0
  let s := { s with g2 := simde_mm256_xor_si256 s.g2 s.g0 }
  let s := { s with g3 := simde_mm256_xor_si256 s.g3 s.g1 }
  let s := { s with g1 := simde_mm256_xor_si256 s.g1 s.g2 }
  let s := { s with g0 := simde_mm256_xor_si256 t s.g3 }
  let s := { s with g2 := rotlx4 c s.g2 45 }
  (result, s)

/-- The function `cml_math_randx4` of `cml.h` 1028-1040. -/
def cml_math_randx4 (c : Compiler) (s : Seedx4) : simde__m256i × Seedx4 := randx4_step c s

/-- The function `simde_mm256_cvtepi64_pd` of `cml.h` 1042-1052:
`result[i] = (f64)a[i]` for each of the four signed 64-bit elements. -/
def simde_mm256_cvtepi64_pd (a : simde__m256i) : simde__m256d :=
  ⟨f64_of_i64 (i64_of_bits a.e0), f64_of_i64 (i64_of_bits a.e1),
   f64_of_i64 (i64_of_bits a.e2), f64_of_i64 (i64_of_bits a.e3)⟩

/-- The intrinsic `_mm256_set1_pd`: the same double in the four lanes. -/
def simde_mm256_set1_pd (a : ℚ) : simde__m256d := ⟨a, a, a, a⟩

/-- The intrinsic `_mm256_mul_pd`: lane-wise product.  The argument `rnd`
completes each arithmetic operation: `f64_round` for the arithmetic of
doubles, `id` for exact arithmetic. -/
def simde_mm256_mul_pd (rnd : ℚ → ℚ) (a b : simde__m256d) : simde__m256d :=
  ⟨rnd (a.d0 * b.d0), rnd (a.d1 * b.d1), rnd (a.d2 * b.d2), rnd (a.d3 * b.d3)⟩

/-- The function `cml_math_randx4_f64` of `cml.h` 1054-1068, statement by
statement; the literal `0x1.0p-53` is `2^-53`. -/
def cml_math_randx4_f64 (c : Compiler) (s : Seedx4) : simde__m256d × Seedx4 :=
  let result := simde_mm256_add_epi64 s.g0 s.g3
  let t := simde_mm256_xor_si256 s.g1 s.g0
  let s := { s with g2 := simde_mm256_xor_si256 s.g2 s.g0 }
  let s := { s with g3 := simde_mm256_xor_si256 s.g3 s.g1 }
  let s := { s with g1 := simde_mm256_xor_si256 s.g1 s.g2 }
  let s := { s with g0 := simde_mm256_xor_si256 t s.g3 }
  let s := { s with g2 := rotlx4 c s.g2 45 }
  let random := simde_mm256_cvtepi64_pd result
  let scale := simde_mm256_set1_pd (1 / 2 ^ 53)
  (simde_mm256_mul_pd f64_round random scale, s)

/-- Every lane of the state is a `u64`. -/
def simde__m256i.wf (x : simde__m256i) : Prop :=
  x.e0 < U64_SIZE ∧ x.e1 < U64_SIZE ∧ x.e2 < U64_SIZE ∧ x.e3 < U64_SIZE

instance (x : simde__m256i) : Decidable x.wf := by
  unfold simde__m256i.wf; infer_instance

/-- Every lane of every element of the state is a `u64`. -/
def Seedx4.wf (s : Seedx4) : Prop := s.g0.wf ∧ s.g1.wf ∧ s.g2.wf ∧ s.g3.wf

instance (s : Seedx4) : Decidable s.wf := by
  unfold Seedx4.wf; infer_instance

/-! ## Type-generic wrappers (`cml.h` 216-646)

A wrapper is a macro `_Generic((x), T1: r1, ..., Tn: rn)(x)` without a
`default` association.  Its selection is kept as the list of its
associations, each a type name and the identifier bound to it. -/

/-- The type names of the associations (typedefs of `cml.h` 52-101), and
any other C type by name. -/
inductive CType where
  | i8 | i16 | i32 | i64 | u8 | u16 | u32 | u64 | f32 | f64
  | f32x4 | f64x2 | f32x8 | f64x4 | f32x16 | f64x8
  | other (name : String)
  deriving DecidableEq, Repr

/-- An element type: a float of 32 or 64 bits, or an integer. -/
inductive Elem where
  | f32
  | f64
  | int (signed : Bool) (bits : Nat)
  deriving DecidableEq, Repr

/-- The element type and the lane count of a type: the scalar typedefs of
`cml.h` 52-80 have one lane, and `f32x4 ... f64x8` (`cml.h` 89-101) are the
SIMDe vectors of 128, 256 and 512 bits. -/
def CType.shape : CType → Option (Elem × Nat)
  | .i8 => some (.int true 8, 1)
  | .i16 => some (.int true 16, 1)
  | .i32 => some (.int true 32, 1)
  | .i64 => some (.int true 64, 1)
  | .u8 => some (.int false 8, 1)
  | .u16 => some (.int false 16, 1)
  | .u32 => some (.int false 32, 1)
  | .u64 => some (.int false 64, 1)
  | .f32 => some (.f32, 1)
  | .f64 => some (.f64, 1)
  | .f32x4 => some (.f32, 4)
  | .f64x2 => some (.f64, 2)
  | .f32x8 => some (.f32, 8)
  | .f64x4 => some (.f64, 4)
  | .f32x16 => some (.f32, 16)
  | .f64x8 => some (.f64, 8)
  | .other _ => none

/-- The association list of a `_Generic` selection. -/
abbrev GenericTable := List (CType × String)

/-- The identifier that a `_Generic` selection without `default` yields for
an operand of type `t`: that of the one association whose type is `t`.
No association, or more than one, is a constraint violation: nothing is
selected and the program does not compile. -/
def generic_select (table : GenericTable) (t : CType) : Option String :=
  match table.filter (fun e => decide (e.1 = t)) with
  | [e] => some e.2
  | _ => none

/-- The functions that are declared where a wrapper is used, by name, each
with the element type and the lane count of its operand.  `cml.h` itself
declares none of the identifiers that its selections bind: the functions of
`<math.h>` and of SIMDe come from the headers that it includes
(`cml.h` 9-17). -/
abbrev Declarations := String → Option (Elem × Nat)

/-- A generic selection is an expression of the program only when the
identifier of every association is declared: the associations that are not
selected are not evaluated, but each of them is an expression.  The
preprocessor replaces the name of a function-like macro only where a `(`
follows it, so `math_utils_min`, `math_utils_max` and `math_utils_abs`
(macros of `cml.h` 589, 611, 632) stand in their associations as plain
identifiers. -/
def generic_valid (decl : Declarations) (table : GenericTable) : Bool :=
  table.all (fun e => (decl e.2).isSome)

/-- The operand of the routine that a wrapper binds for an operand of type
`t`: that of the declared function which the selected identifier names;
nothing when the selection is not an expression or selects nothing. -/
def generic_routine (decl : Declarations) (table : GenericTable) (t : CType) :
    Option (Elem × Nat) :=
  if generic_valid decl table then (generic_select table t).bind decl else none

/-- Modelled from the documentation of `<math.h>` and of the Intel
intrinsics: the functions that the selections of `cml_math_sin` and the
vector associations of `cml_math_min` name. -/
def sample_declarations : Declarations := fun name =>
  if name = "sinf" then some (.f32, 1)
  else if name = "sin" then some (.f64, 1)
  else if name = "simde_mm_sin_ps" ∨ name = "simde_mm_min_ps" then some (.f32, 4)
  else if name = "simde_mm_sin_pd" ∨ name = "simde_mm_min_pd" then some (.f64, 2)
  else if name = "simde_mm256_sin_ps" ∨ name = "simde_mm256_min_ps" then some (.f32, 8)
  else if name = "simde_mm256_sin_pd" ∨ name = "simde_mm256_min_pd" then some (.f64, 4)
  else if name = "simde_mm512_sin_ps" ∨ name = "simde_mm512_min_ps" then some (.f32, 16)
  else if name = "simde_mm512_sin_pd" ∨ name = "simde_mm512_min_pd" then some (.f64, 8)
  else none

/-- The operand types that the wrappers support. -/
def supported_types : List CType :=
  [.f32, .f64, .f32x4, .f64x2, .f32x8, .f64x4, .f32x16, .f64x8]

/-- The type `t` appears in exactly one association of `table`. -/
def appears_once (table : GenericTable) (t : CType) : Bool :=
  decide ((table.filter (fun e => decide (e.1 = t))).length = 1)

/-- The selection of the macro `cml_math_sin` (`cml.h` 226-235). -/
def cml_math_sin : GenericTable :=
  [(.f32, "sinf"), (.f64, "sin"), (.f32x4, "simde_mm_sin_ps"), (.f64x2, "simde_mm_sin_pd"),
   (.f32x8, "simde_mm256_sin_ps"), (.f64x4, "simde_mm256_sin_pd"),
   (.f32x16, "simde_mm512_sin_ps"), (.f64x8, "simde_mm512_sin_pd")]

/-- The selection of the macro `cml_math_cos` (`cml.h` 237-246). -/
def cml_math_cos : GenericTable :=
  [(.f32, "cosf"), (.f64, "cos"), (.f32x4, "simde_mm_cos_ps"), (.f64x2, "simde_mm_cos_pd"),
   (.f32x8, "simde_mm256_cos_ps"), (.f64x4, "simde_mm256_cos_pd"),
   (.f32x16, "simde_mm512_cos_ps"), (.f64x8, "simde_mm512_cos_pd")]

/-- The selection of the macro `cml_math_tan` (`cml.h` 248-257). -/
def cml_math_tan : GenericTable :=
  [(.f32, "tanf"), (.f64, "tan"), (.f32x4, "simde_mm_tan_ps"), (.f64x2, "simde_mm_tan_pd"),
   (.f32x8, "simde_mm256_tan_ps"), (.f64x4, "simde_mm256_tan_pd"),
   (.f32x16, "simde_mm512_tan_ps"), (.f64x8, "simde_mm512_tan_pd")]

/-- The selection of the macro `cml_math_asin` (`cml.h` 259-268). -/
def cml_math_asin : GenericTable :=
  [(.f32, "asinf"), (.f64, "asin"), (.f32x4, "simde_mm_asin_ps"), (.f64x2, "simde_mm_asin_pd"),
   (.f32x8, "simde_mm256_asin_ps"), (.f64x4, "simde_mm256_asin_pd"),
   (.f32x16, "simde_mm512_asin_ps"), (.f64x8, "simde_mm512_asin_pd")]

/-- The selection of the macro `cml_math_acos` (`cml.h` 270-279). -/
def cml_math_acos : GenericTable :=
  [(.f32, "acosf"), (.f64, "acos"), (.f32x4, "simde_mm_acos_ps"), (.f64x2, "simde_mm_acos_pd"),
   (.f32x8, "simde_mm256_acos_ps"), (.f64x4, "simde_mm256_acos_pd"),
   (.f32x16, "simde_mm512_acos_ps"), (.f64x8, "simde_mm512_acos_pd")]

/-- The selection of the macro `cml_math_atan` (`cml.h` 281-290). -/
def cml_math_atan : GenericTable :=
  [(.f32, "atanf"), (.f64, "atan"), (.f32x4, "simde_mm_atan_ps"), (.f64x2, "simde_mm_atan_pd"),
   (.f32x8, "simde_mm256_atan_ps"), (.f64x4, "simde_mm256_atan_pd"),
   (.f32x16, "simde_mm512_atan_ps"), (.f64x8, "simde_mm512_atan_pd")]

/-- The selection of the macro `cml_math_atan2` (`cml.h` 292-301). -/
def cml_math_atan2 : GenericTable :=
  [(.f32, "atan2f"), (.f64, "atan2"), (.f32x4, "simde_mm_atan2_ps"),
   (.f64x2, "simde_mm_atan2_pd"), (.f32x8, "simde_mm256_atan2_ps"),
   (.f64x4, "simde_mm256_atan2_pd"), (.f32x16, "simde_mm512_atan2_ps"),
   (.f64x8, "simde_mm512_atan2_pd")]

/-- The selection of the macro `cml_math_sinh` (`cml.h` 307-316). -/
def cml_math_sinh : GenericTable :=
  [(.f32, "sinhf"), (.f64, "sinh"), (.f32x4, "simde_mm_sinh_ps"), (.f64x2, "simde_mm_sinh_pd"),
   (.f32x8, "simde_mm256_sinh_ps"), (.f64x4, "simde_mm256_sinh_pd"),
   (.f32x16, "simde_mm512_sinh_ps"), (.f64x8, "simde_mm512_sinh_pd")]

/-- The selection of the macro `cml_math_cosh` (`cml.h` 318-327). -/
def cml_math_cosh : GenericTable :=
  [(.f32, "coshf"), (.f64, "cosh"), (.f32x4, "simde_mm_cosh_ps"), (.f64x2, "simde_mm_cosh_pd"),
   (.f32x8, "simde_mm256_cosh_ps"), (.f64x4, "simde_mm256_cosh_pd"),
   (.f32x16, "simde_mm512_cosh_ps"), (.f64x8, "simde_mm512_cosh_pd")]

/-- The selection of the macro `cml_math_tanh` (`cml.h` 329-338). -/
def cml_math_tanh : GenericTable :=
  [(.f32, "tanhf"), (.f64, "tanh"), (.f32x4, "simde_mm_tanh_ps"), (.f64x2, "simde_mm_tanh_pd"),
   (.f32x8, "simde_mm256_tanh_ps"), (.f64x4, "simde_mm256_tanh_pd"),
   (.f32x16, "simde_mm512_tanh_ps"), (.f64x8, "simde_mm512_tanh_pd")]

/-- The selection of the macro `cml_math_asinh` (`cml.h` 340-349). -/
def cml_math_asinh : GenericTable :=
  [(.f32, "asinhf"), (.f64, "asinh"), (.f32x4, "simde_mm_asinh_ps"),
   (.f64x2, "simde_mm_asinh_pd"), (.f32x8, "simde_mm256_asinh_ps"),
   (.f64x4, "simde_mm256_asinh_pd"), (.f32x16, "simde_mm512_asinh_ps"),
   (.f64x8, "simde_mm512_asinh_pd")]

/-- The selection of the macro `cml_math_acosh` (`cml.h` 351-360). -/
def cml_math_acosh : GenericTable :=
  [(.f32, "acoshf"), (.f64, "acosh"), (.f32x4, "simde_mm_acosh_ps"),
   (.f64x2, "simde_mm_acosh_pd"), (.f32x8, "simde_mm256_acosh_ps"),
   (.f64x4, "simde_mm256_acosh_pd"), (.f32x16, "simde_mm512_acosh_ps"),
   (.f64x8, "simde_mm512_acosh_pd")]

/-- The selection of the macro `cml_math_atanh` (`cml.h` 362-371). -/
def cml_math_atanh : GenericTable :=
  [(.f32, "atanhf"), (.f64, "atanh"), (.f32x4, "simde_mm_atanh_ps"),
   (.f64x2, "simde_mm_atanh_pd"), (.f32x8, "simde_mm256_atanh_ps"),
   (.f64x4, "simde_mm256_atanh_pd"), (.f32x16, "simde_mm512_atanh_ps"),
   (.f64x8, "simde_mm512_atanh_pd")]

/-- The selection of the macro `cml_math_exp` (`cml.h` 377-386). -/
def cml_math_exp : GenericTable :=
  [(.f32, "expf"), (.f64, "exp"), (.f32x4, "simde_mm_exp_ps"), (.f64x2, "simde_mm_exp_pd"),
   (.f32x8, "simde_mm256_exp_ps"), (.f64x4, "simde_mm256_exp_pd"),
   (.f32x16, "simde_mm512_exp_ps"), (.f64x8, "simde_mm512_exp_pd")]

/-- The selection of the macro `cml_math_exp2` (`cml.h` 388-397). -/
def cml_math_exp2 : GenericTable :=
  [(.f32, "exp2f"), (.f64, "exp2"), (.f32x4, "simde_mm_exp2_ps"), (.f64x2, "simde_mm_exp2_pd"),
   (.f32x8, "simde_mm256_exp2_ps"), (.f64x4, "simde_mm256_exp2_pd"),
   (.f32x16, "simde_mm512_exp2_ps"), (.f64x8, "simde_mm512_exp2_pd")]

/-- The selection of the macro `cml_math_exp10` (`cml.h` 399-408). -/
def cml_math_exp10 : GenericTable :=
  [(.f32, "exp10f"), (.f64, "exp10"), (.f32x4, "simde_mm_exp10_ps"),
   (.f64x2, "simde_mm_exp10_pd"), (.f32x8, "simde_mm256_exp10_ps"),
   (.f64x4, "simde_mm256_exp10_pd"), (.f32x16, "simde_mm512_exp10_ps"),
   (.f64x8, "simde_mm512_exp10_pd")]

/-- The selection of the macro `cml_math_expm1` (`cml.h` 410-419). -/
def cml_math_expm1 : GenericTable :=
  [(.f32, "expm1f"), (.f64, "expm1"), (.f32x4, "simde_mm_expm1_ps"),
   (.f64x2, "simde_mm_expm1_pd"), (.f32x8, "simde_mm256_expm1_ps"),
   (.f64x4, "simde_mm256_expm1_pd"), (.f32x16, "simde_mm512_expm1_ps"),
   (.f64x8, "simde_mm512_expm1_pd")]

/-- The selection of the macro `cml_math_log` (`cml.h` 425-434). -/
def cml_math_log : GenericTable :=
  [(.f32, "logf"), (.f64, "log"), (.f32x4, "simde_mm_log_ps"), (.f64x2, "simde_mm_log_pd"),
   (.f32x8, "simde_mm256_log_ps"), (.f64x4, "simde_mm256_log_pd"),
   (.f32x16, "simde_mm512_log_ps"), (.f64x8, "simde_mm512_log_pd")]

/-- The selection of the macro `cml_math_log2` (`cml.h` 436-445). -/
def cml_math_log2 : GenericTable :=
  [(.f32, "log2f"), (.f64, "log2"), (.f32x4, "simde_mm_log2_ps"), (.f64x2, "simde_mm_log2_pd"),
   (.f32x8, "simde_mm256_log2_ps"), (.f64x4, "simde_mm256_log2_pd"),
   (.f32x16, "simde_mm512_log2_ps"), (.f64x8, "simde_mm512_log2_pd")]

/-- The selection of the macro `cml_math_log10` (`cml.h` 447-456). -/
def cml_math_log10 : GenericTable :=
  [(.f32, "log10f"), (.f64, "log10"), (.f32x4, "simde_mm_log10_ps"),
   (.f64x2, "simde_mm_log10_pd"), (.f32x8, "simde_mm256_log10_ps"),
   (.f64x4, "simde_mm256_log10_pd"), (.f32x16, "simde_mm512_log10_ps"),
   (.f64x8, "simde_mm512_log10_pd")]

/-- The selection of the macro `cml_math_log1p` (`cml.h` 458-467). -/
def cml_math_log1p : GenericTable :=
  [(.f32, "log1pf"), (.f64, "log1p"), (.f32x4, "simde_mm_log1p_ps"),
   (.f64x2, "simde_mm_log1p_pd"), (.f32x8, "simde_mm256_log1p_ps"),
   (.f64x4, "simde_mm256_log1p_pd"), (.f32x16, "simde_mm512_log1p_ps"),
   (.f64x8, "simde_mm512_log1p_pd")]

/-- The selection of the macro `cml_math_pow` (`cml.h` 473-482). -/
def cml_math_pow : GenericTable :=
  [(.f32, "powf"), (.f64, "pow"), (.f32x4, "simde_mm_pow_ps"), (.f64x2, "simde_mm_pow_pd"),
   (.f32x8, "simde_mm256_pow_ps"), (.f64x4, "simde_mm256_pow_pd"),
   (.f32x16, "simde_mm512_pow_ps"), (.f64x8, "simde_mm512_pow_pd")]

/-- The selection of the macro `cml_math_sqrt` (`cml.h` 484-493). -/
def cml_math_sqrt : GenericTable :=
  [(.f32, "sqrtf"), (.f64, "sqrt"), (.f32x4, "simde_mm_sqrt_ps"), (.f64x2, "simde_mm_sqrt_pd"),
   (.f32x8, "simde_mm256_sqrt_ps"), (.f64x4, "simde_mm256_sqrt_pd"),
   (.f32x16, "simde_mm512_sqrt_ps"), (.f64x8, "simde_mm512_sqrt_pd")]

/-- The selection of the macro `cml_math_cbrt` (`cml.h` 495-504). -/
def cml_math_cbrt : GenericTable :=
  [(.f32, "cbrtf"), (.f64, "cbrt"), (.f32x4, "simde_mm_cbrt_ps"), (.f64x2, "simde_mm_cbrt_pd"),
   (.f32x8, "simde_mm256_cbrt_ps"), (.f64x4, "simde_mm256_cbrt_pd"),
   (.f32x16, "simde_mm512_cbrt_ps"), (.f64x8, "simde_mm512_cbrt_pd")]

/-- The selection of the macro `cml_math_hypot` (`cml.h` 506-515). -/
def cml_math_hypot : GenericTable :=
  [(.f32, "hypotf"), (.f64, "hypot"), (.f32x4, "simde_mm_hypot_ps"),
   (.f64x2, "simde_mm_hypot_pd"), (.f32x8, "simde_mm256_hypot_ps"),
   (.f64x4, "simde_mm256_hypot_pd"), (.f32x16, "simde_mm512_hypot_ps"),
   (.f64x8, "simde_mm512_hypot_pd")]

/-- The selection of the macro `cml_math_ceil` (`cml.h` 521-530). -/
def cml_math_ceil : GenericTable :=
  [(.f32, "ceilf"), (.f64, "ceil"), (.f32x4, "simde_mm_ceil_ps"), (.f64x2, "simde_mm_ceil_pd"),
   (.f32x8, "simde_mm256_ceil_ps"), (.f64x4, "simde_mm256_ceil_pd"),
   (.f32x16, "simde_mm512_ceil_ps"), (.f64x8, "simde_mm512_ceil_pd")]

/-- The selection of the macro `cml_math_floor` (`cml.h` 532-541). -/
def cml_math_floor : GenericTable :=
  [(.f32, "floorf"), (.f64, "floor"), (.f32x4, "simde_mm_floor_ps"),
   (.f64x2, "simde_mm_floor_pd"), (.f32x8, "simde_mm256_floor_ps"),
   (.f64x4, "simde_mm256_floor_pd"), (.f32x16, "simde_mm512_floor_ps"),
   (.f64x8, "simde_mm512_floor_pd")]

/-- The selection of the macro `cml_math_round` (`cml.h` 543-552). -/
def cml_math_round : GenericTable :=
  [(.f32, "roundf"), (.f64, "round"), (.f32x4, "simde_mm_round_ps"),
   (.f64x2, "simde_mm_round_pd"), (.f32x8, "simde_mm256_round_ps"),
   (.f64x4, "simde_mm256_round_pd"), (.f32x16, "simde_mm512_round_ps"),
   (.f64x8, "simde_mm512_round_pd")]

/-- The selection of the macro `cml_math_trunc` (`cml.h` 554-563). -/
def cml_math_trunc : GenericTable :=
  [(.f32, "truncf"), (.f64, "trunc"), (.f32x4, "simde_mm_trunc_ps"),
   (.f64x2, "simde_mm_trunc_pd"), (.f32x8, "simde_mm256_trunc_ps"),
   (.f64x4, "simde_mm256_trunc_pd"), (.f32x16, "simde_mm512_trunc_ps"),
   (.f64x8, "simde_mm512_trunc_pd")]

/-- The selection of the macro `cml_math_rint` (`cml.h` 565-574). -/
def cml_math_rint : GenericTable :=
  [(.f32, "rintf"), (.f64, "rint"), (.f32x4, "simde_mm_rint_ps"), (.f64x2, "simde_mm_rint_pd"),
   (.f32x8, "simde_mm256_rint_ps"), (.f64x4, "simde_mm256_rint_pd"),
   (.f32x16, "simde_mm512_rint_ps"), (.f64x8, "simde_mm512_rint_pd")]

/-- The selection of the macro `cml_math_nearbyint` (`cml.h` 576-585). -/
def cml_math_nearbyint : GenericTable :=
  [(.f32, "nearbyintf"), (.f64, "nearbyint"), (.f32x4, "simde_mm_nearbyint_ps"),
   (.f64x2, "simde_mm_nearbyint_pd"), (.f32x8, "simde_mm256_nearbyint_ps"),
   (.f64x4, "simde_mm256_nearbyint_pd"), (.f32x16, "simde_mm512_nearbyint_ps"),
   (.f64x8, "simde_mm512_nearbyint_pd")]

/-- The selection of the macro `cml_math_min` (`cml.h` 590-607). -/
def cml_math_min : GenericTable :=
  [(.i8, "math_utils_min"), (.i16, "math_utils_min"), (.i32, "math_utils_min"),
   (.i64, "math_utils_min"), (.u8, "math_utils_min"), (.u16, "math_utils_min"),
   (.u32, "math_utils_min"), (.u64, "math_utils_min"), (.f32, "math_utils_min"),
   (.f64, "math_utils_min"), (.f32x4, "simde_mm_min_ps"), (.f64x2, "simde_mm_min_pd"),
   (.f32x8, "simde_mm256_min_ps"), (.f64x4, "simde_mm256_min_pd"),
   (.f32x16, "simde_mm512_min_ps"), (.f64x8, "simde_mm512_min_pd")]

/-- The selection of the macro `cml_math_max` (`cml.h` 612-629). -/
def cml_math_max : GenericTable :=
  [(.i8, "math_utils_max"), (.i16, "math_utils_max"), (.i32, "math_utils_max"),
   (.i64, "math_utils_max"), (.u8, "math_utils_max"), (.u16, "math_utils_max"),
   (.u32, "math_utils_max"), (.u64, "math_utils_max"), (.f32, "math_utils_max"),
   (.f64, "math_utils_max"), (.f32x4, "simde_mm_max_ps"), (.f64x2, "simde_mm_max_pd"),
   (.f32x8, "simde_mm256_max_ps"), (.f64x4, "simde_mm256_max_pd"),
   (.f32x16, "simde_mm512_max_ps"), (.f64x8, "simde_mm512_max_pd")]

/-- The selection of the macro `cml_math_abs` (`cml.h` 633-646). -/
def cml_math_abs : GenericTable :=
  [(.i8, "math_utils_abs"), (.i16, "math_utils_abs"), (.i32, "math_utils_abs"),
   (.i64, "math_utils_abs"), (.f32, "math_utils_abs"), (.f64, "math_utils_abs"),
   (.f32x4, "simde_mm_abs_ps"), (.f64x2, "simde_mm_abs_pd"), (.f32x8, "simde_mm256_abs_ps"),
   (.f64x4, "simde_mm256_abs_pd"), (.f32x16, "simde_mm512_abs_ps"),
   (.f64x8, "simde_mm512_abs_pd")]

/-- Every type-generic wrapper of `cml.h`, by name, in source order. -/
def generic_wrappers : List (String × GenericTable) :=
  [("cml_math_sin", cml_math_sin), ("cml_math_cos", cml_math_cos),
   ("cml_math_tan", cml_math_tan), ("cml_math_asin", cml_math_asin),
   ("cml_math_acos", cml_math_acos), ("cml_math_atan", cml_math_atan),
   ("cml_math_atan2", cml_math_atan2), ("cml_math_sinh", cml_math_sinh),
   ("cml_math_cosh", cml_math_cosh), ("cml_math_tanh", cml_math_tanh),
   ("cml_math_asinh", cml_math_asinh), ("cml_math_acosh", cml_math_acosh),
   ("cml_math_atanh", cml_math_atanh), ("cml_math_exp", cml_math_exp),
   ("cml_math_exp2", cml_math_exp2), ("cml_math_exp10", cml_math_exp10),
   ("cml_math_expm1", cml_math_expm1), ("cml_math_log", cml_math_log),
   ("cml_math_log2", cml_math_log2), ("cml_math_log10", cml_math_log10),
   ("cml_math_log1p", cml_math_log1p), ("cml_math_pow", cml_math_pow),
   ("cml_math_sqrt", cml_math_sqrt), ("cml_math_cbrt", cml_math_cbrt),
   ("cml_math_hypot", cml_math_hypot), ("cml_math_ceil", cml_math_ceil),
   ("cml_math_floor", cml_math_floor), ("cml_math_round", cml_math_round),
   ("cml_math_trunc", cml_math_trunc), ("cml_math_rint", cml_math_rint),
   ("cml_math_nearbyint", cml_math_nearbyint), ("cml_math_min", cml_math_min),
   ("cml_math_max", cml_math_max), ("cml_math_abs", cml_math_abs)]

/-! ## Generic utilities and vectors of `cml.h`

The argument `rnd` of an operation on doubles completes each arithmetic
step: `f64_round` for the arithmetic of doubles, `id` for exact
arithmetic. -/

/-- The constant `CML_EPSILON`, that is `DBL_EPSILON` of `<float.h>`: `2^-52`. -/
def CML_EPSILON : ℚ := 1 / 2 ^ 52

/-- The macro `math_utils_abs(x)` of `cml.h` 632: `(((x) < 0) ? -(x) : (x))`. -/
def math_utils_abs (x : ℚ) : ℚ := if x < 0 then -x else x

/-- The macro `cml_math_is_equal(a, b)` of `cml.h` 652-654 on doubles:
`(cml_math_abs((a) - (b)) < CML_EPSILON)`, read with the macro
`math_utils_abs`, which the `f64` association of `cml_math_abs` names, applied
to the difference. -/
def cml_math_is_equal (rnd : ℚ → ℚ) (a b : ℚ) : Bool :=
  decide (math_utils_abs (rnd (a - b)) < CML_EPSILON)

/-- The intrinsic `_mm_mul_pd`: lane-wise product. -/
def simde_mm_mul_pd (rnd : ℚ → ℚ) (a b : simde__m128d) : simde__m128d :=
  ⟨rnd (a.d0 * b.d0), rnd (a.d1 * b.d1)⟩

/-- The intrinsic `_mm_sub_pd`: lane-wise difference. -/
def simde_mm_sub_pd (rnd : ℚ → ℚ) (a b : simde__m128d) : simde__m128d :=
  ⟨rnd (a.d0 - b.d0), rnd (a.d1 - b.d1)⟩

/-- The intrinsic `_mm_shuffle_pd`: lane 0 is lane 1 of `a` when bit 0 of
`imm8` is set and lane 0 of `a` otherwise; lane 1 is lane 1 of `b` when
bit 1 of `imm8` is set and lane 0 of `b` otherwise. -/
def simde_mm_shuffle_pd (a b : simde__m128d) (imm8 : Nat) : simde__m128d :=
  ⟨if imm8 % 2 = 1 then a.d1 else a.d0, if imm8 / 2 % 2 = 1 then b.d1 else b.d0⟩

/-- The intrinsic `_mm_cvtsd_f64`: lane 0. -/
def simde_mm_cvtsd_f64 (a : simde__m128d) : ℚ := a.d0

/-- The intrinsic `_mm_set_pd(e1, e0)`: the last argument is lane 0. -/
def simde_mm_set_pd (e1 e0 : ℚ) : simde__m128d := ⟨e0, e1⟩

/-- The intrinsic `_mm256_set_pd(e3, e2, e1, e0)`: the last argument is lane 0. -/
def simde_mm256_set_pd (e3 e2 e1 e0 : ℚ) : simde__m256d := ⟨e0, e1, e2, e3⟩

/-- The intrinsic `_mm256_hadd_pd`: the sums of adjacent pairs, taken
inside each 128-bit half: `a0 + a1`, `b0 + b1`, `a2 + a3`, `b2 + b3`. -/
def simde_mm256_hadd_pd (rnd : ℚ → ℚ) (a b : simde__m256d) : simde__m256d :=
  ⟨rnd (a.d0 + a.d1), rnd (b.d0 + b.d1), rnd (a.d2 + a.d3), rnd (b.d2 + b.d3)⟩

/-- The `struct vec2` of `cml.h` 1083-1086. -/
structure vec2 where
  v : simde__m128d
  deriving DecidableEq

/-- The `struct vec4` of `cml.h` 1494-1496. -/
structure vec4 where
  v : simde__m256d
  deriving DecidableEq

/-- The function `cml_math_vec2_set` of `cml.h` 1093-1098: `x` is lane 0. -/
def cml_math_vec2_set (x y : ℚ) : vec2 := ⟨simde_mm_set_pd y x⟩

/-- The function `cml_math_vec4_set` of `cml.h` 1498-1504: `x` is lane 0. -/
def cml_math_vec4_set (x y z w : ℚ) : vec4 := ⟨simde_mm256_set_pd w z y x⟩

/-- The function `cml_math_vec2_cross_product` of `cml.h` 1397-1406. -/
def cml_math_vec2_cross_product (rnd : ℚ → ℚ) (a b : vec2) : ℚ :=
  let v : vec2 := ⟨simde_mm_shuffle_pd a.v a.v 1⟩
  let v : vec2 := ⟨simde_mm_mul_pd rnd v.v b.v⟩
  let v : vec2 := ⟨simde_mm_shuffle_pd v.v v.v 1⟩
  let v : vec2 := ⟨simde_mm_sub_pd rnd a.v v.v⟩
  simde_mm_cvtsd_f64 v.v

/-- The function `cml_math_vec4_dot_product` of `cml.h` 1722-1730; it
returns `r.v[0]`. -/
def cml_math_vec4_dot_product (rnd : ℚ → ℚ) (a b : vec4) : ℚ :=
  let r : vec4 := ⟨simde_mm256_mul_pd rnd a.v b.v⟩
  let r : vec4 := ⟨simde_mm256_hadd_pd rnd r.v r.v⟩
  let r : vec4 := ⟨simde_mm256_hadd_pd rnd r.v r.v⟩
  r.v.d0

/-- The function `cml_math_vec4_length_squared` of `cml.h` 1758-1766. -/
def cml_math_vec4_length_squared (rnd : ℚ → ℚ) (v : vec4) : ℚ :=
  let r : vec4 := ⟨simde_mm256_mul_pd rnd v.v v.v⟩
  let r : vec4 := ⟨simde_mm256_hadd_pd rnd r.v r.v⟩
  let r : vec4 := ⟨simde_mm256_hadd_pd rnd r.v r.v⟩
  r.v.d0

/-! ## Matrices, quaternions and `cml_math_gcd` of `cml.h`

The scalar arithmetic of `cml_math_mat4_det` and `cml_math_mat4_inverse`
is taken exact. -/

/-- Lane `j` of a `simde__m256d` (`a[j]`), lane 3 for any `j` past 2. -/
def simde__m256d.lane (a : simde__m256d) (j : Nat) : ℚ :=
  match j with
  | 0 => a.d0
  | 1 => a.d1
  | 2 => a.d2
  | _ => a.d3

/-- The intrinsic `_mm256_add_pd`: lane-wise sum. -/
def simde_mm256_add_pd (rnd : ℚ → ℚ) (a b : simde__m256d) : simde__m256d :=
  ⟨rnd (a.d0 + b.d0), rnd (a.d1 + b.d1), rnd (a.d2 + b.d2), rnd (a.d3 + b.d3)⟩

/-- The intrinsic `_mm256_permute4x64_pd`: lane `i` of the result is the lane
of `a` that bits `2i+1 : 2i` of `imm8` select. -/
def simde_mm256_permute4x64_pd (a : simde__m256d) (imm8 : Nat) : simde__m256d :=
  ⟨a.lane (imm8 % 4), a.lane (imm8 / 4 % 4), a.lane (imm8 / 16 % 4), a.lane (imm8 / 64 % 4)⟩

/-- The `struct mat4` of `cml.h` 1865-1867: `simde__m256d m[4]`. -/
structure mat4 where
  m0 : simde__m256d
  m1 : simde__m256d
  m2 : simde__m256d
  m3 : simde__m256d
  deriving DecidableEq

/-- The row `a.m[i]`, row 3 for any `i` past 2. -/
def mat4.row (a : mat4) (i : Nat) : simde__m256d :=
  match i with
  | 0 => a.m0
  | 1 => a.m1
  | 2 => a.m2
  | _ => a.m3

/-- The assignment `a.m[i] = v`. -/
def mat4.setRow (a : mat4) (i : Nat) (v : simde__m256d) : mat4 :=
  match i with
  | 0 => { a with m0 := v }
  | 1 => { a with m1 := v }
  | 2 => { a with m2 := v }
  | _ => { a with m3 := v }

/-- The entry `a.m[i][j]`: element `j` of the row vector `a.m[i]`. -/
def mat4.get (a : mat4) (i j : Nat) : ℚ := (a.row i).lane j

/-- The function `cml_math_mat4` of `cml.h` 1873-1885. -/
def cml_math_mat4 (m00 m01 m02 m03 m10 m11 m12 m13 m20 m21 m22 m23 m30 m31 m32 m33 : ℚ) :
    mat4 :=
  ⟨simde_mm256_set_pd m00 m01 m02 m03,
   simde_mm256_set_pd m10 m11 m12 m13,
   simde_mm256_set_pd m20 m21 m22 m23,
   simde_mm256_set_pd m30 m31 m32 m33⟩

/-- The function `cml_math_mat4_mul` of `cml.h` 1909-1925, with its two loops
over `i` and `j` from 0 to 3. -/
def cml_math_mat4_mul (rnd : ℚ → ℚ) (a b : mat4) : mat4 :=
  let r : mat4 := ⟨simde_mm256_set1_pd 0, simde_mm256_set1_pd 0,
    simde_mm256_set1_pd 0, simde_mm256_set1_pd 0⟩
  [0, 1, 2, 3].foldl (fun r i =>
    [0, 1, 2, 3].foldl (fun r j =>
      r.setRow i (simde_mm256_add_pd rnd (r.row i)
        (simde_mm256_mul_pd rnd (simde_mm256_set1_pd (a.get i j)) (b.row j)))) r) r

/-- The function `cml_math_mat4_identity` of `cml.h` 1938-1947. -/
def cml_math_mat4_identity : mat4 :=
  ⟨simde_mm256_set_pd 1 0 0 0,
   simde_mm256_set_pd 0 1 0 0,
   simde_mm256_set_pd 0 0 1 0,
   simde_mm256_set_pd 0 0 0 1⟩

/-- The function `cml_math_mat4_det` of `cml.h` 2014-2032. -/
def cml_math_mat4_det (a : mat4) : ℚ :=
  let b00 := a.get 0 0 * a.get 1 1 - a.get 0 1 * a.get 1 0
  let b01 := a.get 0 0 * a.get 1 2 - a.get 0 2 * a.get 1 0
  let b02 := a.get 0 0 * a.get 1 3 - a.get 0 3 * a.get 1 0
  let b03 := a.get 0 1 * a.get 1 2 - a.get 0 2 * a.get 1 1
  let b04 := a.get 0 1 * a.get 1 3 - a.get 0 3 * a.get 1 1
  let b05 := a.get 0 2 * a.get 1 3 - a.get 0 3 * a.get 1 2
  let b06 := a.get 2 0 * a.get 3 1 - a.get 2 1 * a.get 3 0
  let b07 := a.get 2 0 * a.get 3 2 - a.get 2 2 * a.get 3 0
  let b08 := a.get 2 0 * a.get 3 3 - a.get 2 3 * a.get 3 0
  let b09 := a.get 2 1 * a.get 3 2 - a.get 2 2 * a.get 3 1
  let b10 := a.get 2 1 * a.get 3 3 - a.get 2 3 * a.get 3 1
  let b11 := a.get 2 2 * a.get 3 3 - a.get 2 3 * a.get 3 2
  b00 * b11 - b01 * b10 + b02 * b09 + b03 * b08 - b04 * b07 + b05 * b06

/-- The function `cml_math_mat4_inverse` of `cml.h` 2034-2069; the entry
`r.m[i][j]` is element `j` of row `i`. -/
def cml_math_mat4_inverse (a : mat4) : mat4 :=
  let b00 := a.get 0 0 * a.get 1 1 - a.get 0 1 * a.get 1 0
  let b01 := a.get 0 0 * a.get 1 2 - a.get 0 2 * a.get 1 0
  let b02 := a.get 0 0 * a.get 1 3 - a.get 0 3 * a.get 1 0
  let b03 := a.get 0 1 * a.get 1 2 - a.get 0 2 * a.get 1 1
  let b04 := a.get 0 1 * a.get 1 3 - a.get 0 3 * a.get 1 1
  let b05 := a.get 0 2 * a.get 1 3 - a.get 0 3 * a.get 1 2
  let b06 := a.get 2 0 * a.get 3 1 - a.get 2 1 * a.get 3 0
  let b07 := a.get 2 0 * a.get 3 2 - a.get 2 2 * a.get 3 0
  let b08 := a.get 2 0 * a.get 3 3 - a.get 2 3 * a.get 3 0
  let b09 := a.get 2 1 * a.get 3 2 - a.get 2 2 * a.get 3 1
  let b10 := a.get 2 1 * a.get 3 3 - a.get 2 3 * a.get 3 1
  let b11 := a.get 2 2 * a.get 3 3 - a.get 2 3 * a.get 3 2
  let det := b00 * b11 - b01 * b10 + b02 * b09 + b03 * b08 - b04 * b07 + b05 * b06
  let invdet := 1 / det
  ⟨⟨( a.get 1 1 * b11 - a.get 1 2 * b10 + a.get 1 3 * b09) * invdet,
    (-a.get 0 1 * b11 + a.get 0 2 * b10 - a.get 0 3 * b09) * invdet,
    ( a.get 3 1 * b05 - a.get 3 2 * b04 + a.get 3 3 * b03) * invdet,
    (-a.get 2 1 * b05 + a.get 2 2 * b04 - a.get 2 3 * b03) * invdet⟩,
   ⟨(-a.get 1 0 * b11 + a.get 1 2 * b08 - a.get 1 3 * b07) * invdet,
    ( a.get 0 0 * b11 - a.get 0 2 * b08 + a.get 0 3 * b07) * invdet,
    (-a.get 3 0 * b05 + a.get 3 2 * b02 - a.get 3 3 * b01) * invdet,
    ( a.get 2 0 * b05 - a.get 2 2 * b02 + a.get 2 3 * b01) * invdet⟩,
   ⟨( a.get 1 0 * b10 - a.get 1 1 * b08 + a.get 1 3 * b06) * invdet,
    (-a.get 0 0 * b10 + a.get 0 1 * b08 - a.get 0 3 * b06) * invdet,
    ( a.get 3 0 * b04 - a.get 3 1 * b02 + a.get 3 3 * b00) * invdet,
    (-a.get 2 0 * b04 + a.get 2 1 * b02 - a.get 2 3 * b00) * invdet⟩,
   ⟨(-a.get 1 0 * b09 + a.get 1 1 * b07 - a.get 1 2 * b06) * invdet,
    ( a.get 0 0 * b09 - a.get 0 1 * b07 + a.get 0 2 * b06) * invdet,
    (-a.get 3 0 * b03 + a.get 3 1 * b01 - a.get 3 2 * b00) * invdet,
    ( a.get 2 0 * b03 - a.get 2 1 * b01 + a.get 2 2 * b00) * invdet⟩⟩

/-- The entries of a `mat4` as a matrix: entry `(i, j)` is `a.m[i][j]`. -/
def mat4.toMatrix (a : mat4) : Matrix (Fin 4) (Fin 4) ℚ :=
  fun i j => a.get i.val j.val

/-- The `struct quat` of `cml.h` 2161-2163. -/
structure quat where
  q : simde__m256d
  deriving DecidableEq

/-- The function `cml_math_quat_identity` of `cml.h` 2165-2171. -/
def cml_math_quat_identity : quat := ⟨simde_mm256_set_pd 0 0 0 1⟩

/-- The function `cml_math_quat_mul` of `cml.h` 2189-2225. -/
def cml_math_quat_mul (rnd : ℚ → ℚ) (a b : quat) : quat :=
  ⟨simde_mm256_add_pd rnd
    (simde_mm256_add_pd rnd
      (simde_mm256_add_pd rnd
        (simde_mm256_mul_pd rnd
          (simde_mm256_permute4x64_pd a.q 0x00)
          (simde_mm256_permute4x64_pd b.q 0x00))
        (simde_mm256_mul_pd rnd
          (simde_mm256_permute4x64_pd a.q 0x55)
          (simde_mm256_permute4x64_pd b.q 0x55)))
      (simde_mm256_add_pd rnd
        (simde_mm256_mul_pd rnd
          (simde_mm256_permute4x64_pd a.q 0xAA)
          (simde_mm256_permute4x64_pd b.q 0xAA))
        (simde_mm256_mul_pd rnd
          (simde_mm256_permute4x64_pd a.q 0xFF)
          (simde_mm256_permute4x64_pd b.q 0xFF))))
    (simde_mm256_add_pd rnd
      (simde_mm256_add_pd rnd
        (simde_mm256_mul_pd rnd
          (simde_mm256_permute4x64_pd a.q 0x00)
          (simde_mm256_permute4x64_pd b.q 0x55))
        (simde_mm256_mul_pd rnd
          (simde_mm256_permute4x64_pd a.q 0x55)
          (simde_mm256_permute4x64_pd b.q 0xAA)))
      (simde_mm256_add_pd rnd
        (simde_mm256_mul_pd rnd
          (simde_mm256_permute4x64_pd a.q 0xAA)
          (simde_mm256_permute4x64_pd b.q 0xFF))
        (simde_mm256_mul_pd rnd
          (simde_mm256_permute4x64_pd a.q 0xFF)
          (simde_mm256_permute4x64_pd b.q 0x00))))⟩

/-- The macro `cml_math_gcd(a, b)` of `cml.h` 725-726 after macro
replacement, on non-negative integers:
`((b) == 0 ? (a) : cml_math_gcd((b), (a) % (b)))`.  The preprocessor does not
replace the name of a macro inside its own replacement, so the inner
`cml_math_gcd` is a call of a function of that name: `callee` is that
function when one is declared, and the call has no value when none is. -/
def cml_math_gcd_expansion (callee : Option (Nat → Nat → Nat)) (a b : Nat) : Option Nat :=
  if b = 0 then some a else callee.map (fun f => f b (a % b))

/-- The macro `cml_math_gcd(a, b)` of `cml.h` 725-726 in the program: `src/`
defines `cml_math_gcd` only as this macro and declares no function of that
name. -/
def cml_math_gcd (a b : Nat) : Option Nat := cml_math_gcd_expansion none a b

/-- Modelled from the spec: the recursion
`gcd(a, b) = (b == 0 ? a : gcd(b, a % b))` that the text of the macro
states. -/
def cml_math_gcd_spec (a b : Nat) : Nat :=
  if b = 0 then a else cml_math_gcd_spec b (a % b)
termination_by b
decreasing_by
  rename_i h
  exact Nat.mod_lt a (Nat.pos_of_ne_zero h)

/-! ## Lanes of the two-lane state, and steps with checked shift counts

In the functions `*_checked` every shift that the C code evaluates first
tests its count: the result is `none` when the count is not strictly
between 0 and 64. -/

/-- Lane `i` of a `simde__m128i` (`x[i]`), lane 1 for any `i` past 0. -/
def simde__m128i.lane (x : simde__m128i) (i : Nat) : Nat :=
  match i with
  | 0 => x.e0
  | _ => x.e1

/-- The two words that lane `i` holds, one per element of `seedx2`. -/
def Seedx2.lane (s : Seedx2) (i : Nat) : Nat × Nat := (s.g0.lane i, s.g1.lane i)

/-- The shift count `k` is strictly between 0 and 64. -/
def shift_ok (k : Nat) : Bool := decide (0 < k ∧ k < 64)

/-- The C expression `x << k` on a `u64`, with its count tested. -/
def shl64_checked (x k : Nat) : Option Nat := if shift_ok k then some (shl64 x k) else none

/-- The C expression `x >> k` on a `u64`, with its count tested. -/
def shr64_checked (x k : Nat) : Option Nat := if shift_ok k then some (shr64 x k) else none

/-- The C expression `x >> n` on a signed 64-bit element, with its count tested. -/
def sar64_checked (x n : Nat) : Option Nat := if shift_ok n then some (sar64 x n) else none

/-- The function `rotl` of `cml.h` 916-919, with the counts of its two shifts
tested. -/
def rotl_checked (x : Nat) (k : Nat) : Option Nat := do
  let a ← shl64_checked x k
  let b ← shr64_checked x (64 - k)
  pure (a ||| b)

/-- One iteration of the loop of `rotlx4` under GCC and Clang, with the counts
of its two shifts tested. -/
def rotlx4_lane_checked (x k : Nat) : Option Nat := do
  let a ← shl64_checked x k
  let b ← sar64_checked x (64 - k)
  pure (a ||| b)

/-- The outputs of `n` consecutive calls of a generator, first call first,
and the state after the last call. -/
def run {σ α : Type} (step : σ → α × σ) : Nat → σ → List α × σ
  | 0, s => ([], s)
  | n + 1, s =>
    let (out, s1) := step s
    let (outs, s2) := run step n s1
    (out :: outs, s2)

end Cml

/-! ## The C library `sf_math.h`

A `double` is the rational it denotes and the arithmetic is exact; a
signed integer of `w` bits is an integer of `[-2^(w-1), 2^(w-1))`, and the
operations that can overflow wrap modulo `2^w`. -/

namespace SfMath

/-- The value of a 32-bit signed result: wrapped into `[-2^31, 2^31)`. -/
def wrap_i32 (v : Int) : Int := (v + 2 ^ 31) % 2 ^ 32 - 2 ^ 31

/-- The value of a 64-bit signed result: wrapped into `[-2^63, 2^63)`. -/
def wrap_i64 (v : Int) : Int := (v + 2 ^ 63) % 2 ^ 64 - 2 ^ 63

/-- The function `sf_math_utils_sign_i32` of `sf_math.h` 259-263:
`return (val >> 31) - (-val >> 31);` with `>>` the arithmetic shift. -/
def sf_math_utils_sign_i32 (val : Int) : Int :=
  wrap_i32 ((val >>> (31 : Nat)) - (wrap_i32 (-val) >>> (31 : Nat)))

/-- The function `sf_math_utils_sign_i64` of `sf_math.h` 265-269:
`return (val >> 63) - (-val >> 63);` with `>>` the arithmetic shift. -/
def sf_math_utils_sign_i64 (val : Int) : Int :=
  wrap_i64 ((val >>> (63 : Nat)) - (wrap_i64 (-val) >>> (63 : Nat)))

/-- The constant `EPSILON` of `sf_math.h` 63-65, that is `DBL_EPSILON` of
`<float.h>`: `2^-52`. -/
def EPSILON : ℚ := 1 / 2 ^ 52

/-- The macro `sf_math_utils_abs(x)` of `sf_math.h` 189 on an `int`:
`(((x) < 0) ? -(x) : (x))`. -/
def sf_math_utils_abs (x : Int) : Int := if x < 0 then -x else x

/-- The macro `sf_math_utils_equals(a, b)` of `sf_math.h` 191-192 on doubles:
`(sf_math_utils_abs((a - b) < EPSILON))`.  The argument of
`sf_math_utils_abs` is the comparison `(a - b) < EPSILON`, an `int` that
is 1 or 0. -/
def sf_math_utils_equals (a b : ℚ) : Int :=
  sf_math_utils_abs (if a - b < EPSILON then 1 else 0)

/-- The `struct vec2` of `sf_math.h` 116-119. -/
structure vec2 where
  x : ℚ
  y : ℚ
  deriving DecidableEq

/-- The `struct vec3` of `sf_math.h` 126-130. -/
structure vec3 where
  x : ℚ
  y : ℚ
  z : ℚ
  deriving DecidableEq

/-- The `struct vec4` of `sf_math.h` 137-142. -/
structure vec4 where
  x : ℚ
  y : ℚ
  z : ℚ
  w : ℚ
  deriving DecidableEq

/-- The function `sf_math_vec2_cross_product` of `sf_math.h` 525-532. -/
def sf_math_vec2_cross_product (a b : vec2) : vec2 :=
  ⟨(a.x * b.y) - (a.y * b.x), (a.y * b.x) - (a.x * b.y)⟩

/-- The function `sf_math_vec2_distance` of `sf_math.h` 563-568.  The macro
`sf_math_utils_square(a)` of `sf_math.h` 197-198 is `(a * a)`, with no
parentheses around `a`: `sf_math_utils_square(b.x - a.x)` is the text
`(b.x - a.x * b.x - a.x)`, in which `*` binds before `-`.  The routine
`sqrt` of `<math.h>` is the argument `sqrt`. -/
def sf_math_vec2_distance (sqrt : ℚ → ℚ) (a b : vec2) : ℚ :=
  sqrt ((b.x - a.x * b.x - a.x) +
        (b.y - a.y * b.y - a.y))

/-- The function `sf_math_vec3_distance` of `sf_math.h` 770-776, with the
macro `sf_math_utils_square` expanded as in `sf_math_vec2_distance`. -/
def sf_math_vec3_distance (sqrt : ℚ → ℚ) (a b : vec3) : ℚ :=
  sqrt ((b.x - a.x * b.x - a.x) +
        (b.y - a.y * b.y - a.y) +
        (b.z - a.z * b.z - a.z))

/-- The function `sf_math_vec4_distance` of `sf_math.h` 1027-1034, with the
macro `sf_math_utils_square` expanded as in `sf_math_vec2_distance`. -/
def sf_math_vec4_distance (sqrt : ℚ → ℚ) (a b : vec4) : ℚ :=
  sqrt ((b.x - a.x * b.x - a.x) +
        (b.y - a.y * b.y - a.y) +
        (b.z - a.z * b.z - a.z) +
        (b.w - a.w * b.w - a.w))

/-- The `struct mat4` of `sf_math.h` 153-157: `f64 m[4][4]`. -/
structure mat4 where
  m : Fin 4 → Fin 4 → ℚ

/-- The function `sf_math_mat4_determinant` of `sf_math.h` 1300-1313. -/
def sf_math_mat4_determinant (det : mat4) : ℚ :=
  let t0 := det.m 2 2 * det.m 3 3 - det.m 3 2 * det.m 2 3
  let t1 := det.m 2 1 * det.m 3 3 - det.m 3 1 * det.m 2 3
  let t2 := det.m 2 1 * det.m 3 2 - det.m 3 1 * det.m 2 2
  let t3 := det.m 2 0 * det.m 3 3 - det.m 3 0 * det.m 2 3
  let t4 := det.m 2 0 * det.m 3 2 - det.m 3 0 * det.m 2 2
  let t5 := det.m 2 0 * det.m 3 1 - det.m 3 0 * det.m 2 1
  det.m 0 0 * (det.m 1 1 * t0 - det.m 1 2 * t1 + det.m 1 3 * t2) -
  det.m 0 1 * (det.m 1 0 * t0 - det.m 1 2 * t3 + det.m 1 3 * t4) +
  det.m 0 2 * (det.m 1 0 * t1 - det.m 1 1 * t3 + det.m 1 3 * t5) -
  det.m 0 3 * (det.m 1 0 * t2 - det.m 1 1 * t4 + det.m 1 2 * t5)

/-- The `struct quat` of `sf_math.h` 171-176. -/
structure quat where
  x : ℚ
  y : ℚ
  z : ℚ
  w : ℚ
  deriving DecidableEq

/-- The function `sf_math_quat_mul_quat` of `sf_math.h` 1586-1594. -/
def sf_math_quat_mul_quat (a b : quat) : quat where
  w := a.w * b.w - a.x * b.x + a.y * b.y + a.z * b.z
  x := a.w * b.x + b.w * a.x + a.y * b.z - a.z * b.y
  y := a.w * b.y + b.w * a.y + a.z * b.x - a.x * b.z
  z := a.w * b.z + b.w * a.z + a.x * b.y - a.y * b.x

/-- The function `sf_math_quat_cross_product` of `sf_math.h` 1636-1644. -/
def sf_math_quat_cross_product (q1 q2 : quat) : quat where
  w := q1.w * q2.w - q1.x * q2.x - q1.y * q2.y - q1.z * q2.z
  x := q1.w * q2.x + q1.x * q2.w + q1.y * q2.z - q1.z * q2.y
  y := q1.w * q2.y + q1.y * q2.w + q1.z * q2.x - q1.x * q2.z
  z := q1.w * q2.z + q1.z * q2.w + q1.x * q2.y - q1.y * q2.x

end SfMath

/-! ## The C++ library `sf_math.hpp` -/

namespace SfMathHpp

/-- The overload `sign(i32 val)` of `sf_math.hpp` 202-206:
`return (val >> 31) - (-val >> 31);`. -/
def sign_i32 (val : Int) : Int :=
  SfMath.wrap_i32 ((val >>> (31 : Nat)) - (SfMath.wrap_i32 (-val) >>> (31 : Nat)))

/-- The overload `sign(i64 val)` of `sf_math.hpp` 208-212:
`return (val >> 63) - (-val >> 63);`. -/
def sign_i64 (val : Int) : Int :=
  SfMath.wrap_i64 ((val >>> (63 : Nat)) - (SfMath.wrap_i64 (-val) >>> (63 : Nat)))

/-- The template `equals(T a, T b)` of `sf_math.hpp` 110-115 at `T = f64`:
`return std::abs((a - b) < EPSILON);`, the result converted to `T`. -/
def equals (a b : ℚ) : ℚ :=
  ((|(if a - b < SfMath.EPSILON then (1 : Int) else 0)| : Int) : ℚ)

/-! The class templates of `sf_math.hpp` take their type parameter `T` as a
type with exact arithmetic; the literals `1.0`, `0.0` are `1`, `0`. -/

/-- The class `vec4<T>` of `sf_math.hpp` 1231-1243: `x, y, z, w`, also read
as `v[0], v[1], v[2], v[3]`. -/
structure vec4 (T : Type) where
  x : T
  y : T
  z : T
  w : T

/-- The member `v[i]` of a `vec4<T>`. -/
def vec4.v {T : Type} (a : vec4 T) (i : Fin 4) : T :=
  match i with
  | 0 => a.x
  | 1 => a.y
  | 2 => a.z
  | 3 => a.w

/-- The `operator+` on two `vec4<T>` (`sf_math.hpp` 1322-1332). -/
def vec4.add {T : Type} [Add T] (lhs rhs : vec4 T) : vec4 T :=
  ⟨lhs.x + rhs.x, lhs.y + rhs.y, lhs.z + rhs.z, lhs.w + rhs.w⟩

/-- The `operator-` on two `vec4<T>` (`sf_math.hpp` 1392-1402). -/
def vec4.sub {T : Type} [Sub T] (lhs rhs : vec4 T) : vec4 T :=
  ⟨lhs.x - rhs.x, lhs.y - rhs.y, lhs.z - rhs.z, lhs.w - rhs.w⟩

/-- The `operator*` on two `vec4<T>` (`sf_math.hpp` 1450-1460). -/
def vec4.mul {T : Type} [Mul T] (lhs rhs : vec4 T) : vec4 T :=
  ⟨rhs.x * lhs.x, rhs.y * lhs.y, rhs.z * lhs.z, rhs.w * lhs.w⟩

/-- The class `mat4<T>` of `sf_math.hpp` 1727-1733: `T m[4][4]`. -/
structure mat4 (T : Type) where
  m : Fin 4 → Fin 4 → T

/-- The assignment `a.m[i][j] = x`. -/
def mat4.set {T : Type} (a : mat4 T) (i j : Fin 4) (x : T) : mat4 T :=
  ⟨fun p q => if p = i ∧ q = j then x else a.m p q⟩

/-- The constructor `mat4()` of `sf_math.hpp` 1735-1740: every entry is 0. -/
def mat4.zero {T : Type} [Zero T] : mat4 T := ⟨fun _ _ => 0⟩

/-- The constructor `mat4(v1, v2, v3, v4)` of `sf_math.hpp` 1742-1747, its
sixteen assignments in order.  The constructor assigns to `m[0][0]`,
`m[1][0]`, `m[2][0]`, `m[3][0]` only; `u` holds the entries of the object
before the assignments, which nothing initialises. -/
def mat4.ofVec4 {T : Type} (u : mat4 T) (v1 v2 v3 v4 : vec4 T) : mat4 T :=
  let a := u
  let a := (((a.set 0 0 (v1.v 0)).set 1 0 (v1.v 1)).set 2 0 (v1.v 2)).set 3 0 (v1.v 3)
  let a := (((a.set 0 0 (v2.v 0)).set 1 0 (v2.v 1)).set 2 0 (v2.v 2)).set 3 0 (v2.v 3)
  let a := (((a.set 0 0 (v3.v 0)).set 1 0 (v3.v 1)).set 2 0 (v3.v 2)).set 3 0 (v3.v 3)
  let a := (((a.set 0 0 (v4.v 0)).set 1 0 (v4.v 1)).set 2 0 (v4.v 2)).set 3 0 (v4.v 3)
  a

/-- The member `identity()` of `sf_math.hpp` 1753-1760. -/
def mat4.identity {T : Type} [Zero T] [One T] (_m : mat4 T) : mat4 T :=
  let mat : mat4 T := mat4.zero
  let mat := (((mat.set 0 0 1).set 1 0 0).set 2 0 0).set 3 0 0
  let mat := (((mat.set 0 1 0).set 1 1 1).set 2 1 0).set 3 1 0
  let mat := (((mat.set 0 2 0).set 1 2 0).set 2 2 1).set 3 2 0
  let mat := (((mat.set 0 3 0).set 1 3 0).set 2 3 0).set 3 3 1
  mat

/-- The member `determinant()` of `sf_math.hpp` 1787-1802. -/
def mat4.determinant {T : Type} [CommRing T] (a : mat4 T) : T :=
  let m := a.m
  let c0 := m 2 2 * m 3 3 - m 2 3 * m 3 2
  let c1 := m 1 2 * m 3 3 - m 1 3 * m 3 2
  let c2 := m 1 2 * m 2 3 - m 1 3 * m 2 2
  let c3 := m 0 2 * m 3 3 - m 0 3 * m 3 2
  let c4 := m 0 2 * m 2 3 - m 0 3 * m 2 2
  let c5 := m 0 2 * m 1 3 - m 0 3 * m 1 2
  let dc : vec4 T := ⟨(m 1 1 * c0 - m 2 1 * c1 + m 3 1 * c2),
                      -(m 0 1 * c0 - m 2 1 * c3 + m 3 1 * c4),
                       (m 0 1 * c1 - m 1 1 * c3 + m 3 1 * c5),
                      -(m 0 1 * c2 - m 1 1 * c4 + m 2 1 * c5)⟩
  m 0 0 * dc.x +
  m 1 0 * dc.y +
  m 2 0 * dc.z +
  m 3 0 * dc.w

/-- The `operator*` of a `mat4<T>` and a scalar (`sf_math.hpp` 1984-2010):
every entry times `rhs`. -/
def mat4.mulScalar {T : Type} [Mul T] (lhs : mat4 T) (rhs : T) : mat4 T :=
  ⟨fun i j => lhs.m i j * rhs⟩

/-- The `operator*` on two `mat4<T>` (`sf_math.hpp` 2012-2026): its two loops
assign every entry `c.m[i][j]`. -/
def mat4.mul {T : Type} [Add T] [Mul T] (lhs rhs : mat4 T) : mat4 T :=
  ⟨fun i j => rhs.m 0 j * lhs.m i 0 +
              rhs.m 1 j * lhs.m i 1 +
              rhs.m 2 j * lhs.m i 2 +
              rhs.m 3 j * lhs.m i 3⟩

/-- The member `inverse()` of `sf_math.hpp` 1804-1849.  The local `inv` is
built by the constructor `mat4(v1, v2, v3, v4)`; `u` holds the entries of
`inv` that the constructor leaves uninitialised. -/
def mat4.inverse {T : Type} [Field T] (a : mat4 T) (u : mat4 T) : mat4 T :=
  let m := a.m
  let c00 := m 2 2 * m 3 3 - m 2 3 * m 3 2
  let c02 := m 2 1 * m 3 3 - m 2 3 * m 3 1
  let c03 := m 2 1 * m 3 2 - m 2 2 * m 3 1
  let c04 := m 1 2 * m 3 3 - m 1 3 * m 3 2
  let c06 := m 1 1 * m 3 3 - m 1 3 * m 3 1
  let c07 := m 1 1 * m 3 2 - m 1 2 * m 3 1
  let c08 := m 1 2 * m 2 3 - m 1 3 * m 2 2
  let c10 := m 1 1 * m 2 3 - m 1 3 * m 2 1
  let c11 := m 1 1 * m 2 2 - m 1 2 * m 2 1
  let c12 := m 0 2 * m 3 3 - m 0 3 * m 3 2
  let c14 := m 0 1 * m 3 3 - m 0 3 * m 3 1
  let c15 := m 0 1 * m 3 2 - m 0 2 * m 3 1
  let c16 := m 0 2 * m 2 3 - m 0 3 * m 2 2
  let c18 := m 0 1 * m 2 3 - m 0 3 * m 2 1
  let c19 := m 0 1 * m 2 2 - m 0 2 * m 2 1
  let c20 := m 0 2 * m 1 3 - m 0 3 * m 1 2
  let c22 := m 0 1 * m 1 3 - m 0 3 * m 1 1
  let c23 := m 0 1 * m 1 2 - m 0 2 * m 1 1
  let c0 : vec4 T := ⟨c00, c00, c02, c03⟩
  let c1 : vec4 T := ⟨c04, c04, c06, c07⟩
  let c2 : vec4 T := ⟨c08, c08, c10, c11⟩
  let c3 : vec4 T := ⟨c12, c12, c14, c15⟩
  let c4 : vec4 T := ⟨c16, c16, c18, c19⟩
  let c5 : vec4 T := ⟨c20, c20, c22, c23⟩
  let v0 : vec4 T := ⟨m 0 1, m 0 0, m 0 0, m 0 0⟩
  let v1 : vec4 T := ⟨m 1 1, m 1 0, m 1 0, m 1 0⟩
  let v2 : vec4 T := ⟨m 2 1, m 2 0, m 2 0, m 2 0⟩
  let v3 : vec4 T := ⟨m 3 1, m 3 0, m 3 0, m 3 0⟩
  let i0 := ((v1.mul c0).sub (v2.mul c1)).add (v3.mul c2)
  let i1 := ((v0.mul c0).sub (v2.mul c3)).add (v3.mul c4)
  let i2 := ((v0.mul c1).sub (v1.mul c3)).add (v3.mul c5)
  let i3 := ((v0.mul c2).sub (v1.mul c4)).add (v2.mul c5)
  let av : vec4 T := ⟨1, -1, 1, -1⟩
  let bv : vec4 T := ⟨-1, 1, -1, 1⟩
  let inv := mat4.ofVec4 u (i0.mul av) (i1.mul bv) (i2.mul av) (i3.mul bv)
  let r0 : vec4 T := ⟨inv.m 0 0, inv.m 0 1, inv.m 0 2, inv.m 0 3⟩
  let d0 : vec4 T := ⟨m 0 0 * r0.x,
                      m 1 0 * r0.y,
                      m 2 0 * r0.z,
                      m 3 0 * r0.w⟩
  let d1 := (d0.x + d0.y) +
            (d0.z + d0.w)
  let invdet := 1 / d1
  inv.mulScalar invdet

/-- The `operator/` on two `mat4<T>` (`sf_math.hpp` 2072-2077):
`lhs * rhs.inverse()`; `u` is the argument `u` of `inverse`. -/
def mat4.div {T : Type} [Field T] (lhs rhs : mat4 T) (u : mat4 T) : mat4 T :=
  lhs.mul (rhs.inverse u)

/-- The struct `quat<T>` of `sf_math.hpp` 2318-2330 (its members `w, x, y, z`
are declared `f32`; they are taken in `T`). -/
structure quat (T : Type) where
  w : T
  x : T
  y : T
  z : T

/-- The `operator*` on two `quat<T>` (`sf_math.hpp` 2558-2568). -/
def quat.mul {T : Type} [Add T] [Sub T] [Mul T] (lhs rhs : quat T) : quat T where
  w := lhs.w * rhs.w - lhs.x * rhs.x + lhs.y * rhs.y + lhs.z * rhs.z
  x := lhs.w * rhs.x + rhs.w * lhs.x + lhs.y * rhs.z - lhs.z * rhs.y
  y := lhs.w * rhs.y + rhs.w * lhs.y + lhs.z * rhs.x - lhs.x * rhs.z
  z := lhs.w * rhs.z + rhs.w * lhs.z + lhs.x * rhs.y - lhs.y * rhs.x

end SfMathHpp

namespace Cml

/-! ## Bits of a rotated word -/

theorem shl64_lt (x k : Nat) : shl64 x k < 2 ^ 64 := by
  unfold shl64 U64_SIZE
  exact Nat.mod_lt _ (by norm_num)

theorem shr64_lt {x : Nat} (hx : x < 2 ^ 64) (k : Nat) : shr64 x k < 2 ^ 64 := by
  unfold shr64
  rw [Nat.shiftRight_eq_div_pow]
  exact lt_of_le_of_lt (Nat.div_le_self x _) hx

theorem rotl_lt {x : Nat} (hx : x < 2 ^ 64) (k : Nat) : rotl x k < 2 ^ 64 := by
  unfold rotl
  exact Nat.or_lt_two_pow (shl64_lt x k) (shr64_lt hx _)

theorem testBit_u64_high {x : Nat} (hx : x < 2 ^ 64) {j : Nat} (hj : 64 ≤ j) :
    x.testBit j = false :=
  Nat.testBit_eq_false_of_lt (lt_of_lt_of_le hx (Nat.pow_le_pow_right (by norm_num) hj))

/-- Bit `i` of `rotl x k`: the low `k` bits come from the top of `x`, the
bits from `k` to 63 from the bottom. -/
theorem testBit_rotl {x : Nat} (hx : x < 2 ^ 64) {k : Nat} (hk64 : k < 64) (i : Nat) :
    (rotl x k).testBit i =
      if i < k then x.testBit (i + 64 - k)
      else if i < 64 then x.testBit (i - k) else false := by
  unfold rotl shl64 shr64 U64_SIZE
  rw [Nat.testBit_or, Nat.testBit_mod_two_pow, Nat.testBit_shiftLeft, Nat.testBit_shiftRight]
  by_cases h1 : i < k
  · have e : 64 - k + i = i + 64 - k := by omega
    have h2 : ¬ (i ≥ k) := by omega
    simp [h1, e, h2]
  · by_cases h2 : i < 64
    · have h3 : x.testBit (64 - k + i) = false := testBit_u64_high hx (by omega)
      have h4 : i ≥ k := by omega
      simp [h1, h2, h3, h4]
    · simp [h1, h2, testBit_u64_high hx (show 64 ≤ 64 - k + i by omega)]

/-! ## Rounding to a double -/

theorem round_half_even_intCast (m : Int) : round_half_even (m : ℚ) = m := by
  simp [round_half_even]

theorem round_half_even_up (q : ℚ) (f : Int) (h1 : (f : ℚ) + 1 / 2 < q) (h2 : q < (f : ℚ) + 1) :
    round_half_even q = f + 1 := by
  have hf : ⌊q⌋ = f := by
    rw [Int.floor_eq_iff]
    constructor
    · linarith
    · exact h2
  have h3 : ¬ (q - (f : ℚ) < 1 / 2) := by linarith
  have h4 : 1 / 2 < q - (f : ℚ) := by linarith
  simp only [round_half_even, hf, h3, h4, if_true, if_false]

theorem Int_log_two_eq {q : ℚ} {l : Int} (h1 : (2 : ℚ) ^ l ≤ |q|) (h2 : |q| < (2 : ℚ) ^ (l + 1)) :
    Int.log 2 |q| = l := by
  have hpos : 0 < |q| := lt_of_lt_of_le (zpow_pos (by norm_num) l) h1
  have hb : 1 < (2 : ℕ) := by norm_num
  apply le_antisymm
  · have := (Int.lt_zpow_iff_log_lt hb hpos).1 (by exact_mod_cast h2)
    omega
  · exact (Int.zpow_le_iff_le_log hb hpos).1 (by exact_mod_cast h1)

/-- The value of `f64_round` once the binary exponent of its argument is known. -/
theorem f64_round_of_exponent {q : ℚ} {l : Int} (h1 : (2 : ℚ) ^ l ≤ |q|)
    (h2 : |q| < (2 : ℚ) ^ (l + 1)) :
    f64_round q = (round_half_even (q / (2 : ℚ) ^ (l - 52)) : ℚ) * (2 : ℚ) ^ (l - 52) := by
  have hpos : 0 < |q| := lt_of_lt_of_le (zpow_pos (by norm_num) l) h1
  have hq : q ≠ 0 := abs_pos.1 hpos
  simp only [f64_round, hq, if_false, Int_log_two_eq h1 h2]

/-- An integer of magnitude below `2^53` is a double: converting it is exact. -/
theorem f64_round_intCast (n : Int) (h : |n| < 2 ^ 53) : f64_round (n : ℚ) = n := by
  by_cases h0 : n = 0
  · simp [h0, f64_round]
  have hq : (n : ℚ) ≠ 0 := by exact_mod_cast h0
  have hpos : 0 < |(n : ℚ)| := abs_pos.2 hq
  have hb : 1 < (2 : ℕ) := by norm_num
  have hl : Int.log 2 |(n : ℚ)| < 53 := by
    apply (Int.lt_zpow_iff_log_lt hb hpos).1
    have h3 : |(n : ℚ)| < 2 ^ 53 := by exact_mod_cast h
    have h4 : (((2 : ℕ) : ℚ)) ^ ((53 : ℕ) : Int) = 2 ^ 53 := by
      rw [zpow_natCast]; norm_num
    have h5 : ((53 : ℕ) : Int) = 53 := rfl
    rw [← h5, h4]
    exact h3
  obtain ⟨m, hm⟩ : ∃ m : ℕ, Int.log 2 |(n : ℚ)| - 52 = -(m : Int) :=
    ⟨(52 - Int.log 2 |(n : ℚ)|).toNat, by omega⟩
  have e1 : (n : ℚ) / (2 : ℚ) ^ (-(m : Int)) = ((n * 2 ^ m : Int) : ℚ) := by
    rw [zpow_neg, zpow_natCast]
    push_cast
    field_simp
  simp only [f64_round, hq, if_false, hm, e1, round_half_even_intCast]
  rw [zpow_neg, zpow_natCast]
  push_cast
  field_simp


/-! ## Deviates at particular words -/

theorem cml_math_rand_f64_fst (s : Seed) :
    (cml_math_rand_f64 s).1 = f64_div (f64_of_u64 (rand_step s).1) (f64_of_u64 UINT64_MAX) := rfl

theorem cml_math_randx2_f64_fst (s : Seedx2) :
    (cml_math_randx2_f64 s).1 =
      simde_mm_cvtepi32_pd (simde_mm_srli_epi64 (randx2_step s).1 32) := rfl

/-- The conversion `(f64)UINT64_MAX` rounds up to `2^64`. -/
theorem f64_of_u64_max : f64_of_u64 UINT64_MAX = 2 ^ 64 := by
  have hc : ((UINT64_MAX : ℕ) : ℚ) = 18446744073709551615 := by
    norm_num [UINT64_MAX]
  unfold f64_of_u64
  rw [hc, f64_round_of_exponent (l := 63) (by norm_num [abs_of_pos]) (by norm_num [abs_of_pos])]
  rw [round_half_even_up _ (2 ^ 53 - 1) (by norm_num) (by norm_num)]
  norm_num

theorem f64_round_one : f64_round 1 = 1 := by
  have := f64_round_intCast 1 (by norm_num)
  simpa using this

/-- A double is a fixed point of the rounding: an integer of magnitude below
`2^53` times a power of two is left as it is. -/
theorem f64_round_dyadic (m e : Int) (hm : |m| < 2 ^ 53) :
    f64_round ((m : ℚ) * (2 : ℚ) ^ e) = (m : ℚ) * (2 : ℚ) ^ e := by
  by_cases h0 : m = 0
  · simp [h0, f64_round]
  have hq : (m : ℚ) ≠ 0 := by exact_mod_cast h0
  have hpos : 0 < |(m : ℚ)| := abs_pos.2 hq
  have hb : 1 < (2 : ℕ) := by norm_num
  have two_pos : (0 : ℚ) < 2 := by norm_num
  have two_ne : (2 : ℚ) ≠ 0 := by norm_num
  have hl : Int.log 2 |(m : ℚ)| < 53 := by
    apply (Int.lt_zpow_iff_log_lt hb hpos).1
    have h3 : |(m : ℚ)| < 2 ^ 53 := by exact_mod_cast hm
    have h4 : (((2 : ℕ) : ℚ)) ^ ((53 : ℕ) : Int) = 2 ^ 53 := by
      rw [zpow_natCast]; norm_num
    have h5 : ((53 : ℕ) : Int) = 53 := rfl
    rw [← h5, h4]
    exact h3
  have h1 : (2 : ℚ) ^ (Int.log 2 |(m : ℚ)|) ≤ |(m : ℚ)| := by
    have := Int.zpow_log_le_self hb hpos
    exact_mod_cast this
  have h2 : |(m : ℚ)| < (2 : ℚ) ^ (Int.log 2 |(m : ℚ)| + 1) := by
    have := Int.lt_zpow_succ_log_self hb |(m : ℚ)|
    exact_mod_cast this
  generalize Int.log 2 |(m : ℚ)| = l at hl h1 h2
  have he : (0 : ℚ) < (2 : ℚ) ^ e := zpow_pos two_pos e
  have habs : |(m : ℚ) * (2 : ℚ) ^ e| = |(m : ℚ)| * (2 : ℚ) ^ e := by
    rw [abs_mul, abs_of_pos he]
  have b1 : (2 : ℚ) ^ (l + e) ≤ |(m : ℚ) * (2 : ℚ) ^ e| := by
    rw [habs, zpow_add₀ two_ne]
    exact mul_le_mul_of_nonneg_right h1 he.le
  have b2 : |(m : ℚ) * (2 : ℚ) ^ e| < (2 : ℚ) ^ (l + e + 1) := by
    rw [habs, show l + e + 1 = (l + 1) + e by ring, zpow_add₀ two_ne]
    exact mul_lt_mul_of_pos_right h2 he
  rw [f64_round_of_exponent b1 b2]
  obtain ⟨k, hk⟩ : ∃ k : ℕ, (52 : Int) - l = (k : Int) := ⟨(52 - l).toNat, by omega⟩
  have e1 : (m : ℚ) * (2 : ℚ) ^ e / (2 : ℚ) ^ (l + e - 52) = ((m * 2 ^ k : Int) : ℚ) := by
    rw [mul_div_assoc, ← zpow_sub₀ two_ne, show e - (l + e - 52) = (k : Int) by omega,
      zpow_natCast]
    push_cast
    ring
  rw [e1, round_half_even_intCast]
  push_cast
  rw [mul_assoc, ← zpow_natCast, ← zpow_add₀ two_ne, show (k : Int) + (l + e - 52) = e by omega]

theorem f64_of_i64_dyadic (m : Int) (k : Nat) (hm : |m| < 2 ^ 53) :
    f64_of_i64 (m * 2 ^ k) = (m : ℚ) * 2 ^ k := by
  unfold f64_of_i64
  have := f64_round_dyadic m k hm
  rw [zpow_natCast] at this
  push_cast
  exact this

theorem cml_math_randx4_f64_d0 (c : Compiler) (s : Seedx4) :
    (cml_math_randx4_f64 c s).1.d0 =
      f64_round (f64_of_i64 (i64_of_bits (add64 s.g0.e0 s.g3.e0)) * (1 / 2 ^ 53)) := rfl

example (c : Compiler) :
   (cml_math_randx4_f64 c ⟨⟨2 ^ 63, 2, 3, 4⟩, ⟨5, 6, 7, 8⟩, ⟨9, 10, 11, 12⟩, ⟨0, 14, 15, 16⟩⟩).1.d0
      = -1024 := by
  rw [cml_math_randx4_f64_d0]
  have h : i64_of_bits (add64 (2 ^ 63) 0) = (-1) * 2 ^ 63 := by decide
  simp only [h]
  rw [f64_of_i64_dyadic (-1) 63 (by norm_num)]
  have := f64_round_dyadic (-1024) 0 (by norm_num)
  norm_num at this ⊢
  exact this

/-! ## Selections, signs and vectors: general facts -/

/-- A type that no association names selects nothing. -/
theorem generic_select_of_not_mem (table : GenericTable) (t : CType)
    (h : t ∉ table.map Prod.fst) : generic_select table t = none := by
  have hf : table.filter (fun e => decide (e.1 = t)) = [] := by
    rw [List.filter_eq_nil_iff]
    intro e he
    simp only [decide_eq_true_eq]
    intro het
    exact h (List.mem_map.2 ⟨e, he, het⟩)
  simp [generic_select, hf]

theorem generic_wrappers_each_once :
    generic_wrappers.all
      (fun w => supported_types.all (fun t => appears_once w.2 t)) = true := by
  decide

/-- Where every identifier of `cml_math_sin` is declared with the operand of
its association, the wrapper binds a routine of the element type and the lane
count of each supported operand type. -/
theorem generic_routine_sample_sin :
    supported_types.all
      (fun t => decide (generic_routine sample_declarations cml_math_sin t = t.shape)) = true := by
  decide

/-- Away from the least 32-bit integer, `sf_math_utils_sign_i32` is the sign. -/
theorem sf_math_utils_sign_i32_of_gt_min (val : Int) (h1 : -2 ^ 31 < val) (h2 : val < 2 ^ 31) :
    SfMath.sf_math_utils_sign_i32 val = if 0 < val then 1 else if val < 0 then -1 else 0 := by
  unfold SfMath.sf_math_utils_sign_i32 SfMath.wrap_i32
  simp only [Int.shiftRight_eq_div_pow]
  split_ifs <;> omega

/-- Away from the least 64-bit integer, `sf_math_utils_sign_i64` is the sign. -/
theorem sf_math_utils_sign_i64_of_gt_min (val : Int) (h1 : -2 ^ 63 < val) (h2 : val < 2 ^ 63) :
    SfMath.sf_math_utils_sign_i64 val = if 0 < val then 1 else if val < 0 then -1 else 0 := by
  unfold SfMath.sf_math_utils_sign_i64 SfMath.wrap_i64
  simp only [Int.shiftRight_eq_div_pow]
  split_ifs <;> omega

/-- In exact arithmetic `cml_math_vec4_dot_product` returns twice the sum of
the first two products. -/
theorem cml_math_vec4_dot_product_exact (a b : vec4) :
    cml_math_vec4_dot_product id a b = 2 * (a.v.d0 * b.v.d0 + a.v.d1 * b.v.d1) := by
  simp only [cml_math_vec4_dot_product, simde_mm256_mul_pd, simde_mm256_hadd_pd, id]
  ring

/-- In exact arithmetic `cml_math_vec2_cross_product` returns `a.x - a.x * b.y`. -/
theorem cml_math_vec2_cross_product_exact (a b : vec2) :
    cml_math_vec2_cross_product id a b = a.v.d0 - a.v.d0 * b.v.d1 := by
  simp [cml_math_vec2_cross_product, simde_mm_mul_pd, simde_mm_sub_pd, simde_mm_shuffle_pd,
    simde_mm_cvtsd_f64]

/-- The states that a run from the all-zero state goes through. -/
theorem run_of_fixed {σ α : Type} (step : σ → α × σ) (z : σ) (o : α) (h : step z = (o, z))
    (n : Nat) : run step n z = (List.replicate n o, z) := by
  induction n with
  | zero => rfl
  | succ n ih => simp [run, h, ih, List.replicate_succ]

/-! ## The claims -/

/-- C1: for every state, `cml_math_rand` returns
`rotl((s1 * 5) mod 2^64, 7) * 9 mod 2^64`, where `s1` is the word that
`seed[1]` holds before the call; the words `s0`, `s2`, `s3` play no part. -/
theorem cml_math_rand_result (s : Seed) :
    (cml_math_rand s).1 = (rotl ((s.s1 * 5) % 2 ^ 64) 7 * 9) % 2 ^ 64 := rfl

/-- C2: for every state, the state that one call of `cml_math_rand` leaves is
`s0 xor s3 xor s1`, `s1 xor s2 xor s0`, `s2 xor s0 xor (s1 << 17 mod 2^64)`,
`rotl(s3 xor s1, 45)`. -/
theorem cml_math_rand_state (s : Seed) :
    (cml_math_rand s).2 =
      ⟨s.s0 ^^^ s.s3 ^^^ s.s1, s.s1 ^^^ s.s2 ^^^ s.s0,
        s.s2 ^^^ s.s0 ^^^ ((s.s1 <<< 17) % 2 ^ 64), rotl (s.s3 ^^^ s.s1) 45⟩ := by
  simp [cml_math_rand, rand_step, shl64, U64_SIZE, Nat.xor_assoc]

/-- C3: from the default seed `{1, 2, 3, 4}` the first call of `cml_math_rand`
returns `rotl(2*5, 7) * 9 = 11520`, which is not zero. -/
theorem cml_math_rand_default_first :
    (cml_math_rand seed).1 = rotl (2 * 5) 7 * 9 ∧ rotl (2 * 5) 7 * 9 = 11520 ∧
      (cml_math_rand seed).1 ≠ 0 := by
  decide

/-- C4, as stated, fails: with the seed `{1, 2, 3, 4}` in every lane,
`cml_math_randx4` returns 5 in each lane (under either compiler), and
`cml_math_rand` returns 11520 from that seed. -/
theorem cml_math_randx4_ne_rand :
    (cml_math_randx4 .gnuc (Seedx4.replicate seed)).1 = ⟨5, 5, 5, 5⟩ ∧
      (cml_math_randx4 .msvc (Seedx4.replicate seed)).1 = ⟨5, 5, 5, 5⟩ ∧
      (cml_math_rand seed).1 = 11520 ∧
      (cml_math_randx4 .gnuc (Seedx4.replicate seed)).1.lane 0 ≠ (cml_math_rand seed).1 ∧
      (cml_math_randx4 .msvc (Seedx4.replicate seed)).1.lane 0 ≠ (cml_math_rand seed).1 := by
  decide

/-- C4, amended: with the seed `S` in every lane, every lane of the value
that `cml_math_randx4` returns is `(S0 + S3) mod 2^64`. -/
theorem cml_math_randx4_replicate_result (c : Compiler) (S : Seed) (i : Nat) :
    (cml_math_randx4 c (Seedx4.replicate S)).1.lane i = (S.s0 + S.s3) % 2 ^ 64 := by
  have h : (cml_math_randx4 c (Seedx4.replicate S)).1 =
      ⟨add64 S.s0 S.s3, add64 S.s0 S.s3, add64 S.s0 S.s3, add64 S.s0 S.s3⟩ := rfl
  rw [h]
  unfold simde__m256i.lane add64 U64_SIZE
  split <;> rfl

/-- C5 at the default state `{{1,2}, {3,4}}`: `cml_math_randx2` returns the
lanes 27 and 20 (the low 32 bits of `seedx2[1]` times 9 and times 5), where
the claim's formula gives 17280 and 23040. -/
theorem cml_math_randx2_default_result :
    (cml_math_randx2 seedx2).1 = ⟨27, 20⟩ ∧
      mul64 (rotl (mul64 seedx2.g1.e0 5) 7) 9 = 17280 ∧
      mul64 (rotl (mul64 seedx2.g1.e1 5) 7) 9 = 23040 ∧
      (cml_math_randx2 seedx2).1.e0 ≠ mul64 (rotl (mul64 seedx2.g1.e0 5) 7) 9 := by
  decide

/-- C6 at the default state of `seedx4`: lane 0 holds the words
`(1, 5, 9, 13)`; one call of `cml_math_randx4` leaves `(12, 13, 2^48, 8)`
there (under either compiler), and one call of `cml_math_rand` from
`(1, 5, 9, 13)` leaves `(9, 13, 655368, 2^48)`. -/
theorem cml_math_randx4_default_lane0 :
    seedx4.lane 0 = ⟨1, 5, 9, 13⟩ ∧
      (cml_math_randx4 .gnuc seedx4).2.lane 0 = ⟨12, 13, 2 ^ 48, 8⟩ ∧
      (cml_math_randx4 .msvc seedx4).2.lane 0 = ⟨12, 13, 2 ^ 48, 8⟩ ∧
      (cml_math_rand ⟨1, 5, 9, 13⟩).2 = ⟨9, 13, 655368, 2 ^ 48⟩ ∧
      (cml_math_randx4 .gnuc seedx4).2.lane 0 ≠ (cml_math_rand (seedx4.lane 0)).2 ∧
      (cml_math_randx4 .msvc seedx4).2.lane 0 ≠ (cml_math_rand (seedx4.lane 0)).2 := by
  decide

/-- C7: for every `u64` `x` and every `k` with `0 < k < 64`,
`rotl(rotl(x, k), 64 - k) = x`. -/
theorem rotl_rotl_inverse (x k : Nat) (hx : x < 2 ^ 64) (hk : 0 < k) (hk64 : k < 64) :
    rotl (rotl x k) (64 - k) = x := by
  apply Nat.eq_of_testBit_eq
  intro i
  rw [testBit_rotl (rotl_lt hx k) (show 64 - k < 64 by omega), testBit_rotl hx hk64,
    testBit_rotl hx hk64]
  by_cases h1 : i < 64 - k
  · have e : i + 64 - (64 - k) - k = i := by omega
    have h2 : ¬ (i + 64 - (64 - k) < k) := by omega
    have h3 : i + 64 - (64 - k) < 64 := by omega
    simp [h1, h2, h3, e]
  · by_cases h2 : i < 64
    · have e : i - (64 - k) + 64 - k = i := by omega
      have h3 : i - (64 - k) < k := by omega
      simp [h1, h2, h3, e]
    · simp [h1, h2, testBit_u64_high hx (show 64 ≤ i by omega)]

theorem rotl_rotl_inverse_witness :
    (0x8000000000000001 < 2 ^ 64 ∧ 0 < 7 ∧ 7 < 64) ∧
      rotl (rotl 0x8000000000000001 7) (64 - 7) = 0x8000000000000001 :=
  ⟨by decide, rotl_rotl_inverse 0x8000000000000001 7 (by decide) (by decide) (by decide)⟩

/-- C8: for each width and every `n`, two runs of `n` consecutive calls of the
raw generator that start from equal states return equal output sequences
and end in equal states. -/
theorem run_deterministic (c : Compiler) (n : Nat) (a b : Seed) (a2 b2 : Seedx2)
    (a4 b4 : Seedx4) (h1 : a = b) (h2 : a2 = b2) (h4 : a4 = b4) :
    ((run cml_math_rand n a).1 = (run cml_math_rand n b).1 ∧
        (run cml_math_rand n a).2 = (run cml_math_rand n b).2) ∧
      ((run cml_math_randx2 n a2).1 = (run cml_math_randx2 n b2).1 ∧
        (run cml_math_randx2 n a2).2 = (run cml_math_randx2 n b2).2) ∧
      ((run (cml_math_randx4 c) n a4).1 = (run (cml_math_randx4 c) n b4).1 ∧
        (run (cml_math_randx4 c) n a4).2 = (run (cml_math_randx4 c) n b4).2) := by
  subst h1 h2 h4
  exact ⟨⟨rfl, rfl⟩, ⟨rfl, rfl⟩, ⟨rfl, rfl⟩⟩

theorem run_deterministic_witness :
    (run cml_math_rand 3 seed).1 = (run cml_math_rand 3 ⟨1, 2, 3, 4⟩).1 ∧
      (run cml_math_randx2 3 seedx2).2 = (run cml_math_randx2 3 ⟨⟨1, 2⟩, ⟨3, 4⟩⟩).2 ∧
      (run (cml_math_randx4 .gnuc) 3 seedx4).1 =
        (run (cml_math_randx4 .gnuc) 3
          ⟨⟨1, 2, 3, 4⟩, ⟨5, 6, 7, 8⟩, ⟨9, 10, 11, 12⟩, ⟨13, 14, 15, 16⟩⟩).1 :=
  have h := run_deterministic .gnuc 3 seed ⟨1, 2, 3, 4⟩ seedx2 ⟨⟨1, 2⟩, ⟨3, 4⟩⟩ seedx4
    ⟨⟨1, 2, 3, 4⟩, ⟨5, 6, 7, 8⟩, ⟨9, 10, 11, 12⟩, ⟨13, 14, 15, 16⟩⟩ rfl rfl rfl
  ⟨h.1.1, h.2.1.2, h.2.2.1⟩

/-- C9 at the state `{1, 0x4fc71c71c71c71c7, 3, 4}`: the raw output is
`UINT64_MAX`, both `(f64)result` and `(f64)UINT64_MAX` are `2^64`, and
`cml_math_rand_f64` returns exactly 1, which is not below 1. -/
theorem cml_math_rand_f64_returns_one :
    Seed.wf ⟨1, 0x4fc71c71c71c71c7, 3, 4⟩ ∧
      (cml_math_rand ⟨1, 0x4fc71c71c71c71c7, 3, 4⟩).1 = UINT64_MAX ∧
      (cml_math_rand_f64 ⟨1, 0x4fc71c71c71c71c7, 3, 4⟩).1 = 1 ∧
      ¬ (cml_math_rand_f64 ⟨1, 0x4fc71c71c71c71c7, 3, 4⟩).1 < 1 := by
  have hr : (rand_step ⟨1, 0x4fc71c71c71c71c7, 3, 4⟩).1 = UINT64_MAX := by decide
  have hv : (cml_math_rand_f64 ⟨1, 0x4fc71c71c71c71c7, 3, 4⟩).1 = 1 := by
    rw [cml_math_rand_f64_fst, hr, f64_of_u64_max]
    unfold f64_div
    rw [div_self (by norm_num)]
    exact f64_round_one
  refine ⟨by decide, hr, hv, ?_⟩
  rw [hv]
  exact lt_irrefl 1

/-- C10 at the state `{{1, 2}, {0xFFFFFFFF, 4}}`: `cml_math_randx2_f64`
returns the doubles 8 and 0; lane 0 is not below 1. -/
theorem cml_math_randx2_f64_returns_eight :
    Seedx2.wf ⟨⟨1, 2⟩, ⟨0xFFFFFFFF, 4⟩⟩ ∧
      (cml_math_randx2_f64 ⟨⟨1, 2⟩, ⟨0xFFFFFFFF, 4⟩⟩).1 = ⟨8, 0⟩ ∧
      ¬ (cml_math_randx2_f64 ⟨⟨1, 2⟩, ⟨0xFFFFFFFF, 4⟩⟩).1.d0 < 1 := by
  have hr : simde_mm_srli_epi64 (randx2_step ⟨⟨1, 2⟩, ⟨0xFFFFFFFF, 4⟩⟩).1 32 = ⟨8, 0⟩ := by
    decide
  have hv : (cml_math_randx2_f64 ⟨⟨1, 2⟩, ⟨0xFFFFFFFF, 4⟩⟩).1 = ⟨8, 0⟩ := by
    rw [cml_math_randx2_f64_fst, hr]
    have h8 : i32_of_bits (8 % 2 ^ 32) = 8 := by decide
    have h0 : i32_of_bits (8 / 2 ^ 32 % 2 ^ 32) = 0 := by decide
    have e8 : f64_round ((8 : Int) : ℚ) = ((8 : Int) : ℚ) := f64_round_intCast 8 (by norm_num)
    have e0 : f64_round ((0 : Int) : ℚ) = ((0 : Int) : ℚ) := f64_round_intCast 0 (by norm_num)
    simp only [simde_mm_cvtepi32_pd, h8, h0, f64_of_i32, e8, e0]
    norm_num
  refine ⟨by decide, hv, ?_⟩
  rw [hv]
  norm_num

/-! ## The claims, continued -/

/-- C11 at two states: with `seedx4[0]` lane 0 equal to `2^63` and `seedx4[3]`
lane 0 equal to 0, lane 0 of the value of `cml_math_randx4_f64` is `-1024`;
with `2^53` in place of `2^63` it is 1.  Neither lies in `[0, 1)`. -/
theorem cml_math_randx4_f64_out_of_range (c : Compiler) :
    Seedx4.wf ⟨⟨2 ^ 63, 2, 3, 4⟩, ⟨5, 6, 7, 8⟩, ⟨9, 10, 11, 12⟩, ⟨0, 14, 15, 16⟩⟩ ∧
      (cml_math_randx4_f64 c
        ⟨⟨2 ^ 63, 2, 3, 4⟩, ⟨5, 6, 7, 8⟩, ⟨9, 10, 11, 12⟩, ⟨0, 14, 15, 16⟩⟩).1.d0 = -1024 ∧
      ¬ 0 ≤ (cml_math_randx4_f64 c
        ⟨⟨2 ^ 63, 2, 3, 4⟩, ⟨5, 6, 7, 8⟩, ⟨9, 10, 11, 12⟩, ⟨0, 14, 15, 16⟩⟩).1.d0 ∧
      Seedx4.wf ⟨⟨2 ^ 53, 2, 3, 4⟩, ⟨5, 6, 7, 8⟩, ⟨9, 10, 11, 12⟩, ⟨0, 14, 15, 16⟩⟩ ∧
      (cml_math_randx4_f64 c
        ⟨⟨2 ^ 53, 2, 3, 4⟩, ⟨5, 6, 7, 8⟩, ⟨9, 10, 11, 12⟩, ⟨0, 14, 15, 16⟩⟩).1.d0 = 1 ∧
      ¬ (cml_math_randx4_f64 c
        ⟨⟨2 ^ 53, 2, 3, 4⟩, ⟨5, 6, 7, 8⟩, ⟨9, 10, 11, 12⟩, ⟨0, 14, 15, 16⟩⟩).1.d0 < 1 := by
  have hA : (cml_math_randx4_f64 c
      ⟨⟨2 ^ 63, 2, 3, 4⟩, ⟨5, 6, 7, 8⟩, ⟨9, 10, 11, 12⟩, ⟨0, 14, 15, 16⟩⟩).1.d0 = -1024 := by
    rw [cml_math_randx4_f64_d0]
    have h : i64_of_bits (add64 (2 ^ 63) 0) = (-1) * 2 ^ 63 := by decide
    simp only [h]
    rw [f64_of_i64_dyadic (-1) 63 (by norm_num)]
    have h2 := f64_round_dyadic (-1024) 0 (by norm_num)
    norm_num at h2 ⊢
    exact h2
  have hB : (cml_math_randx4_f64 c
      ⟨⟨2 ^ 53, 2, 3, 4⟩, ⟨5, 6, 7, 8⟩, ⟨9, 10, 11, 12⟩, ⟨0, 14, 15, 16⟩⟩).1.d0 = 1 := by
    rw [cml_math_randx4_f64_d0]
    have h : i64_of_bits (add64 (2 ^ 53) 0) = 1 * 2 ^ 53 := by decide
    simp only [h]
    rw [f64_of_i64_dyadic 1 53 (by norm_num)]
    have h2 := f64_round_dyadic 1 0 (by norm_num)
    norm_num at h2 ⊢
    exact h2
  refine ⟨by decide, hA, ?_, by decide, hB, ?_⟩
  · rw [hA]; norm_num
  · rw [hB]; norm_num

/-- C12: for each width and every state, the deviate function leaves the state
that the raw function leaves, and returns the width's conversion of the raw
value: `(f64)raw / (f64)UINT64_MAX`, `cvtepi32_pd(raw >> 32)`,
`cvtepi64_pd(raw) * 2^-53`. -/
theorem deviate_is_raw_then_convert (c : Compiler) (s : Seed) (s2 : Seedx2) (s4 : Seedx4) :
    ((cml_math_rand_f64 s).2 = (cml_math_rand s).2 ∧
        (cml_math_rand_f64 s).1 =
          f64_div (f64_of_u64 (cml_math_rand s).1) (f64_of_u64 UINT64_MAX)) ∧
      ((cml_math_randx2_f64 s2).2 = (cml_math_randx2 s2).2 ∧
        (cml_math_randx2_f64 s2).1 =
          simde_mm_cvtepi32_pd (simde_mm_srli_epi64 (cml_math_randx2 s2).1 32)) ∧
      ((cml_math_randx4_f64 c s4).2 = (cml_math_randx4 c s4).2 ∧
        (cml_math_randx4_f64 c s4).1 =
          simde_mm256_mul_pd f64_round (simde_mm256_cvtepi64_pd (cml_math_randx4 c s4).1)
            (simde_mm256_set1_pd (1 / 2 ^ 53))) :=
  ⟨⟨rfl, rfl⟩, ⟨rfl, rfl⟩, ⟨rfl, rfl⟩⟩

/-- C13, as stated, fails: lane 0 of the default `seedx4` holds `(1, 5, 9, 13)`,
not the scalar seed, and the lanes of `seedx4[0]` and of `seedx2[0]` hold
different constants. -/
theorem default_seeds_not_replicated :
    seedx4.lane 0 = ⟨1, 5, 9, 13⟩ ∧ seedx4.lane 0 ≠ seed ∧
      seedx4.g0.e0 ≠ seedx4.g0.e1 ∧ seedx2.g0.e0 ≠ seedx2.g0.e1 := by
  decide

/-- C13, amended: the default `seedx2` holds the words 1, 2 in `seedx2[0]` and
3, 4 in `seedx2[1]`; the default `seedx4` holds `1 + i + 4 * g` in lane `i` of
`seedx4[g]`; the scalar seed is `seedx4[0]`; in each state all words are
nonzero and no two are equal. -/
theorem default_seeds_distinct_nonzero :
    (seedx2 = ⟨⟨seed.s0, seed.s1⟩, ⟨seed.s2, seed.s3⟩⟩ ∧
        seedx4.g0 = ⟨seed.s0, seed.s1, seed.s2, seed.s3⟩) ∧
      (seedx4.lane 0 = ⟨1, 5, 9, 13⟩ ∧ seedx4.lane 1 = ⟨2, 6, 10, 14⟩ ∧
        seedx4.lane 2 = ⟨3, 7, 11, 15⟩ ∧ seedx4.lane 3 = ⟨4, 8, 12, 16⟩) ∧
      ([seedx2.g0.e0, seedx2.g0.e1, seedx2.g1.e0, seedx2.g1.e1].Nodup ∧
        0 ∉ [seedx2.g0.e0, seedx2.g0.e1, seedx2.g1.e0, seedx2.g1.e1]) ∧
      ([seedx4.g0.e0, seedx4.g0.e1, seedx4.g0.e2, seedx4.g0.e3,
          seedx4.g1.e0, seedx4.g1.e1, seedx4.g1.e2, seedx4.g1.e3,
          seedx4.g2.e0, seedx4.g2.e1, seedx4.g2.e2, seedx4.g2.e3,
          seedx4.g3.e0, seedx4.g3.e1, seedx4.g3.e2, seedx4.g3.e3].Nodup ∧
        0 ∉ [seedx4.g0.e0, seedx4.g0.e1, seedx4.g0.e2, seedx4.g0.e3,
          seedx4.g1.e0, seedx4.g1.e1, seedx4.g1.e2, seedx4.g1.e3,
          seedx4.g2.e0, seedx4.g2.e1, seedx4.g2.e2, seedx4.g2.e3,
          seedx4.g3.e0, seedx4.g3.e1, seedx4.g3.e2, seedx4.g3.e3]) := by
  decide

/-- C14, as stated, fails: each raw generator accepts the all-zero state and
returns an output from it (0 in every lane), with no error. -/
theorem zero_state_accepted :
    cml_math_rand ⟨0, 0, 0, 0⟩ = (0, ⟨0, 0, 0, 0⟩) ∧
      cml_math_randx2 ⟨⟨0, 0⟩, ⟨0, 0⟩⟩ = (⟨0, 0⟩, ⟨⟨0, 0⟩, ⟨0, 0⟩⟩) ∧
      cml_math_randx4 .gnuc ⟨⟨0, 0, 0, 0⟩, ⟨0, 0, 0, 0⟩, ⟨0, 0, 0, 0⟩, ⟨0, 0, 0, 0⟩⟩ =
        (⟨0, 0, 0, 0⟩, ⟨⟨0, 0, 0, 0⟩, ⟨0, 0, 0, 0⟩, ⟨0, 0, 0, 0⟩, ⟨0, 0, 0, 0⟩⟩) ∧
      cml_math_randx4 .msvc ⟨⟨0, 0, 0, 0⟩, ⟨0, 0, 0, 0⟩, ⟨0, 0, 0, 0⟩, ⟨0, 0, 0, 0⟩⟩ =
        (⟨0, 0, 0, 0⟩, ⟨⟨0, 0, 0, 0⟩, ⟨0, 0, 0, 0⟩, ⟨0, 0, 0, 0⟩, ⟨0, 0, 0, 0⟩⟩) := by
  decide

/-- C14, amended: no call rejects the all-zero state; for every width and every
`n`, `n` consecutive calls of the raw generator from the all-zero state
return 0 in every lane each time and leave the state all-zero. -/
theorem zero_state_is_fixed (c : Compiler) (n : Nat) :
    run cml_math_rand n ⟨0, 0, 0, 0⟩ = (List.replicate n 0, ⟨0, 0, 0, 0⟩) ∧
      run cml_math_randx2 n ⟨⟨0, 0⟩, ⟨0, 0⟩⟩ =
        (List.replicate n ⟨0, 0⟩, ⟨⟨0, 0⟩, ⟨0, 0⟩⟩) ∧
      run (cml_math_randx4 c) n ⟨⟨0, 0, 0, 0⟩, ⟨0, 0, 0, 0⟩, ⟨0, 0, 0, 0⟩, ⟨0, 0, 0, 0⟩⟩ =
        (List.replicate n ⟨0, 0, 0, 0⟩,
          ⟨⟨0, 0, 0, 0⟩, ⟨0, 0, 0, 0⟩, ⟨0, 0, 0, 0⟩, ⟨0, 0, 0, 0⟩⟩) := by
  refine ⟨run_of_fixed _ _ _ (by decide) n, run_of_fixed _ _ _ (by decide) n, ?_⟩
  cases c
  · exact run_of_fixed _ _ _ (by decide) n
  · exact run_of_fixed _ _ _ (by decide) n

/-- C15 fails for `cml_math_min`, `cml_math_max` and `cml_math_abs`: in every
type-generic wrapper of `cml.h` each supported operand type appears in exactly
one association and a type that no association names selects nothing, but the
scalar associations of these three wrappers name `math_utils_min`,
`math_utils_max`, `math_utils_abs`, which `cml.h` defines only as function-like
macros; where no function of these names is declared, the identifier selected
for `f32` and for `f64` names no routine, the selection is not an expression,
and the wrapper binds no routine for any operand type. -/
theorem generic_min_max_abs_bind_no_routine (decl : Declarations)
    (hmin : decl "math_utils_min" = none) (hmax : decl "math_utils_max" = none)
    (habs : decl "math_utils_abs" = none) (t : CType) :
    ((∀ w ∈ generic_wrappers, ∀ s ∈ supported_types, appears_once w.2 s = true) ∧
      (∀ w ∈ generic_wrappers, ∀ u, u ∉ w.2.map Prod.fst → generic_select w.2 u = none)) ∧
    (∀ s ∈ [CType.f32, CType.f64],
      (generic_select cml_math_min s = some "math_utils_min" ∧
        generic_select cml_math_max s = some "math_utils_max" ∧
        generic_select cml_math_abs s = some "math_utils_abs") ∧
      ((generic_select cml_math_min s).bind decl = none ∧
        (generic_select cml_math_max s).bind decl = none ∧
        (generic_select cml_math_abs s).bind decl = none)) ∧
    (generic_routine decl cml_math_min t = none ∧
      generic_routine decl cml_math_max t = none ∧
      generic_routine decl cml_math_abs t = none) := by
  refine ⟨⟨?_, ?_⟩, ?_, ?_, ?_, ?_⟩
  · intro w hw s hs
    exact List.all_eq_true.1 (List.all_eq_true.1 generic_wrappers_each_once w hw) s hs
  · intro w _ u hu
    exact generic_select_of_not_mem w.2 u hu
  · intro s hs
    have hsel : generic_select cml_math_min s = some "math_utils_min" ∧
        generic_select cml_math_max s = some "math_utils_max" ∧
        generic_select cml_math_abs s = some "math_utils_abs" := by
      simp only [List.mem_cons, List.mem_singleton, List.not_mem_nil, or_false] at hs
      rcases hs with rfl | rfl <;> decide
    refine ⟨hsel, ?_, ?_, ?_⟩
    · rw [hsel.1]; exact hmin
    · rw [hsel.2.1]; exact hmax
    · rw [hsel.2.2]; exact habs
  · simp [generic_routine, generic_valid, cml_math_min, hmin]
  · simp [generic_routine, generic_valid, cml_math_max, hmax]
  · simp [generic_routine, generic_valid, cml_math_abs, habs]

theorem generic_min_max_abs_bind_no_routine_witness :
    (sample_declarations "math_utils_min" = none ∧
        sample_declarations "math_utils_max" = none ∧
        sample_declarations "math_utils_abs" = none) ∧
      (generic_routine sample_declarations cml_math_min .f32x4 = none ∧
        generic_routine sample_declarations cml_math_max .f32x4 = none ∧
        generic_routine sample_declarations cml_math_abs .f32x4 = none) :=
  ⟨by decide,
    (generic_min_max_abs_bind_no_routine sample_declarations (by decide) (by decide)
      (by decide) .f32x4).2.2⟩

/-- C16 at the least integers: `sf_math_utils_sign_i32(-2^31)` and
`sf_math_utils_sign_i64(-2^63)` are 0 although the argument is negative, and so
are the C++ overloads `sign`; at `-2^31 + 1` the result is `-1`. -/
theorem sign_of_least_integer_is_zero :
    SfMath.sf_math_utils_sign_i32 (-2 ^ 31) = 0 ∧
      SfMath.sf_math_utils_sign_i64 (-2 ^ 63) = 0 ∧
      SfMathHpp.sign_i32 (-2 ^ 31) = 0 ∧ SfMathHpp.sign_i64 (-2 ^ 63) = 0 ∧
      SfMath.sf_math_utils_sign_i32 (-2 ^ 31 + 1) = -1 := by
  decide

/-- C17 at `a = 0`, `b = 1`: `sf_math_utils_equals(0, 1)` is 1 (true) although
`|0 - 1|` is not below `EPSILON`, and `sf_math_utils_equals(1, 0)` is 0, so the
check is not symmetric; the C++ `equals` does the same, and
`cml_math_is_equal(0, 1)` is false. -/
theorem sf_math_utils_equals_not_symmetric :
    SfMath.sf_math_utils_equals 0 1 = 1 ∧ SfMath.sf_math_utils_equals 1 0 = 0 ∧
      ¬ |(0 : ℚ) - 1| < SfMath.EPSILON ∧
      SfMathHpp.equals 0 1 = 1 ∧ SfMathHpp.equals 1 0 = 0 ∧
      cml_math_is_equal id 0 1 = false := by
  refine ⟨?_, ?_, ?_, ?_, ?_, ?_⟩
  · norm_num [SfMath.sf_math_utils_equals, SfMath.sf_math_utils_abs, SfMath.EPSILON]
  · norm_num [SfMath.sf_math_utils_equals, SfMath.sf_math_utils_abs, SfMath.EPSILON]
  · norm_num [SfMath.EPSILON]
  · norm_num [SfMathHpp.equals, SfMath.EPSILON]
  · norm_num [SfMathHpp.equals, SfMath.EPSILON]
  · norm_num [cml_math_is_equal, math_utils_abs, CML_EPSILON]

/-- C18 at `a = 0`, `b = (4, 0, ...)`: the functions `sf_math_vec2_distance`,
`sf_math_vec3_distance` and `sf_math_vec4_distance` return `sqrt(4)`, where
the sum of the squared differences is 16. -/
theorem sf_math_distance_not_euclidean (sqrt : ℚ → ℚ) :
    SfMath.sf_math_vec2_distance sqrt ⟨0, 0⟩ ⟨4, 0⟩ = sqrt 4 ∧
      SfMath.sf_math_vec3_distance sqrt ⟨0, 0, 0⟩ ⟨4, 0, 0⟩ = sqrt 4 ∧
      SfMath.sf_math_vec4_distance sqrt ⟨0, 0, 0, 0⟩ ⟨4, 0, 0, 0⟩ = sqrt 4 ∧
      ((4 : ℚ) - 0) ^ 2 + (0 - 0) ^ 2 = 16 := by
  refine ⟨?_, ?_, ?_, by norm_num⟩
  · norm_num [SfMath.sf_math_vec2_distance]
  · norm_num [SfMath.sf_math_vec3_distance]
  · norm_num [SfMath.sf_math_vec4_distance]

/-- C19 at `a = (1, 2, 3, 4)`, `b = (5, 6, 7, 8)` in exact arithmetic:
`cml_math_vec4_dot_product` returns 34, twice `1*5 + 2*6`, where the dot
product is 70; `cml_math_vec4_length_squared` of `a` returns 10, not 30. -/
theorem cml_math_vec4_dot_product_wrong :
    cml_math_vec4_dot_product id (cml_math_vec4_set 1 2 3 4) (cml_math_vec4_set 5 6 7 8) = 34 ∧
      (1 : ℚ) * 5 + 2 * 6 + 3 * 7 + 4 * 8 = 70 ∧
      cml_math_vec4_length_squared id (cml_math_vec4_set 1 2 3 4) = 10 := by
  refine ⟨?_, by norm_num, ?_⟩
  · norm_num [cml_math_vec4_dot_product, cml_math_vec4_set, simde_mm256_set_pd,
      simde_mm256_mul_pd, simde_mm256_hadd_pd]
  · norm_num [cml_math_vec4_length_squared, cml_math_vec4_set, simde_mm256_set_pd,
      simde_mm256_mul_pd, simde_mm256_hadd_pd]

/-- C20 at `a = (1, 2)`, `b = (3, 4)` in exact arithmetic:
`cml_math_vec2_cross_product` returns `-3`, that is `a.x - a.x * b.y`, where
the cross product `a.x * b.y - a.y * b.x` is `-2`, the value that
`sf_math_vec2_cross_product` puts in `c.x`. -/
theorem cml_math_vec2_cross_product_wrong :
    cml_math_vec2_cross_product id (cml_math_vec2_set 1 2) (cml_math_vec2_set 3 4) = -3 ∧
      (1 : ℚ) * 4 - 2 * 3 = -2 ∧
      (SfMath.sf_math_vec2_cross_product ⟨1, 2⟩ ⟨3, 4⟩).x = -2 := by
  refine ⟨?_, by norm_num, ?_⟩
  · norm_num [cml_math_vec2_cross_product, cml_math_vec2_set, simde_mm_set_pd,
      simde_mm_mul_pd, simde_mm_sub_pd, simde_mm_shuffle_pd, simde_mm_cvtsd_f64]
  · norm_num [SfMath.sf_math_vec2_cross_product]

/-! ## Matrices: general facts -/

theorem det_fin_four_expand {T : Type} [CommRing T] (A : Matrix (Fin 4) (Fin 4) T) :
    A.det =
      A 0 0 * (A 1 1 * (A 2 2 * A 3 3 - A 2 3 * A 3 2) - A 1 2 * (A 2 1 * A 3 3 - A 2 3 * A 3 1)
          + A 1 3 * (A 2 1 * A 3 2 - A 2 2 * A 3 1))
        - A 0 1 * (A 1 0 * (A 2 2 * A 3 3 - A 2 3 * A 3 2)
          - A 1 2 * (A 2 0 * A 3 3 - A 2 3 * A 3 0) + A 1 3 * (A 2 0 * A 3 2 - A 2 2 * A 3 0))
        + A 0 2 * (A 1 0 * (A 2 1 * A 3 3 - A 2 3 * A 3 1)
          - A 1 1 * (A 2 0 * A 3 3 - A 2 3 * A 3 0) + A 1 3 * (A 2 0 * A 3 1 - A 2 1 * A 3 0))
        - A 0 3 * (A 1 0 * (A 2 1 * A 3 2 - A 2 2 * A 3 1)
          - A 1 1 * (A 2 0 * A 3 2 - A 2 2 * A 3 0) + A 1 2 * (A 2 0 * A 3 1 - A 2 1 * A 3 0)) := by
  have h1 : Fin.succ (2 : Fin 3) = (3 : Fin 4) := rfl
  have h2 : Fin.castSucc (2 : Fin 3) = (2 : Fin 4) := rfl
  have h3 : ¬ ((2 : Fin 4) < 2) := by decide
  have h4 : (1 : Fin 4) < 3 := by decide
  have h5 : ((3 : Fin 4) : ℕ) = 3 := rfl
  rw [Matrix.det_succ_row_zero]
  simp only [Fin.sum_univ_succ, Matrix.det_fin_three, Matrix.submatrix_apply]
  simp [Fin.succAbove, h1, h2, h3, h4, h5]
  ring

theorem cml_math_mat4_mul_exact (a b : mat4) :
    cml_math_mat4_mul id a b =
      ⟨⟨a.m0.d0 * b.m0.d0 + a.m0.d1 * b.m1.d0 + a.m0.d2 * b.m2.d0 + a.m0.d3 * b.m3.d0,
        a.m0.d0 * b.m0.d1 + a.m0.d1 * b.m1.d1 + a.m0.d2 * b.m2.d1 + a.m0.d3 * b.m3.d1,
        a.m0.d0 * b.m0.d2 + a.m0.d1 * b.m1.d2 + a.m0.d2 * b.m2.d2 + a.m0.d3 * b.m3.d2,
        a.m0.d0 * b.m0.d3 + a.m0.d1 * b.m1.d3 + a.m0.d2 * b.m2.d3 + a.m0.d3 * b.m3.d3⟩,
       ⟨a.m1.d0 * b.m0.d0 + a.m1.d1 * b.m1.d0 + a.m1.d2 * b.m2.d0 + a.m1.d3 * b.m3.d0,
        a.m1.d0 * b.m0.d1 + a.m1.d1 * b.m1.d1 + a.m1.d2 * b.m2.d1 + a.m1.d3 * b.m3.d1,
        a.m1.d0 * b.m0.d2 + a.m1.d1 * b.m1.d2 + a.m1.d2 * b.m2.d2 + a.m1.d3 * b.m3.d2,
        a.m1.d0 * b.m0.d3 + a.m1.d1 * b.m1.d3 + a.m1.d2 * b.m2.d3 + a.m1.d3 * b.m3.d3⟩,
       ⟨a.m2.d0 * b.m0.d0 + a.m2.d1 * b.m1.d0 + a.m2.d2 * b.m2.d0 + a.m2.d3 * b.m3.d0,
        a.m2.d0 * b.m0.d1 + a.m2.d1 * b.m1.d1 + a.m2.d2 * b.m2.d1 + a.m2.d3 * b.m3.d1,
        a.m2.d0 * b.m0.d2 + a.m2.d1 * b.m1.d2 + a.m2.d2 * b.m2.d2 + a.m2.d3 * b.m3.d2,
        a.m2.d0 * b.m0.d3 + a.m2.d1 * b.m1.d3 + a.m2.d2 * b.m2.d3 + a.m2.d3 * b.m3.d3⟩,
       ⟨a.m3.d0 * b.m0.d0 + a.m3.d1 * b.m1.d0 + a.m3.d2 * b.m2.d0 + a.m3.d3 * b.m3.d0,
        a.m3.d0 * b.m0.d1 + a.m3.d1 * b.m1.d1 + a.m3.d2 * b.m2.d1 + a.m3.d3 * b.m3.d1,
        a.m3.d0 * b.m0.d2 + a.m3.d1 * b.m1.d2 + a.m3.d2 * b.m2.d2 + a.m3.d3 * b.m3.d2,
        a.m3.d0 * b.m0.d3 + a.m3.d1 * b.m1.d3 + a.m3.d2 * b.m2.d3 + a.m3.d3 * b.m3.d3⟩⟩ := by
  simp only [cml_math_mat4_mul, List.foldl, mat4.setRow, mat4.row, mat4.get,
    simde__m256d.lane, simde_mm256_add_pd, simde_mm256_mul_pd, simde_mm256_set1_pd, id,
    zero_add]

/-- In exact arithmetic, left multiplication by `cml_math_mat4_identity()` puts
the rows of `a` in reverse order. -/
theorem cml_math_mat4_identity_mul (a : mat4) :
    cml_math_mat4_mul id cml_math_mat4_identity a = ⟨a.m3, a.m2, a.m1, a.m0⟩ := by
  rw [cml_math_mat4_mul_exact]
  simp [cml_math_mat4_identity, simde_mm256_set_pd]

/-- In exact arithmetic, right multiplication by `cml_math_mat4_identity()`
puts the elements of each row of `a` in reverse order. -/
theorem cml_math_mat4_mul_identity (a : mat4) :
    cml_math_mat4_mul id a cml_math_mat4_identity =
      ⟨⟨a.m0.d3, a.m0.d2, a.m0.d1, a.m0.d0⟩, ⟨a.m1.d3, a.m1.d2, a.m1.d1, a.m1.d0⟩,
       ⟨a.m2.d3, a.m2.d2, a.m2.d1, a.m2.d0⟩, ⟨a.m3.d3, a.m3.d2, a.m3.d1, a.m3.d0⟩⟩ := by
  rw [cml_math_mat4_mul_exact]
  simp [cml_math_mat4_identity, simde_mm256_set_pd]

theorem cml_math_mat4_mul_inverse_exact (a : mat4) (h : cml_math_mat4_det a ≠ 0) :
    cml_math_mat4_mul id a (cml_math_mat4_inverse a) =
      ⟨⟨1, 0, 0, 0⟩, ⟨0, 1, 0, 0⟩, ⟨0, 0, 1, 0⟩, ⟨0, 0, 0, 1⟩⟩ := by
  obtain ⟨⟨a00, a01, a02, a03⟩, ⟨a10, a11, a12, a13⟩, ⟨a20, a21, a22, a23⟩,
    ⟨a30, a31, a32, a33⟩⟩ := a
  rw [cml_math_mat4_mul_exact]
  simp only [cml_math_mat4_det, mat4.get, mat4.row, simde__m256d.lane] at h
  simp only [cml_math_mat4_inverse, mat4.get, mat4.row, simde__m256d.lane, mat4.mk.injEq,
    simde__m256d.mk.injEq]
  have hv := mul_one_div_cancel h
  generalize (1 : ℚ) / _ = v at hv ⊢
  refine ⟨⟨?_, ?_, ?_, ?_⟩, ⟨?_, ?_, ?_, ?_⟩, ⟨?_, ?_, ?_, ?_⟩, ⟨?_, ?_, ?_, ?_⟩⟩
  · linear_combination hv
  · ring
  · ring
  · ring
  · ring
  · linear_combination hv
  · ring
  · ring
  · ring
  · ring
  · linear_combination hv
  · ring
  · ring
  · ring
  · ring
  · linear_combination hv

theorem cml_math_mat4_inverse_mul_exact (a : mat4) (h : cml_math_mat4_det a ≠ 0) :
    cml_math_mat4_mul id (cml_math_mat4_inverse a) a =
      ⟨⟨1, 0, 0, 0⟩, ⟨0, 1, 0, 0⟩, ⟨0, 0, 1, 0⟩, ⟨0, 0, 0, 1⟩⟩ := by
  obtain ⟨⟨a00, a01, a02, a03⟩, ⟨a10, a11, a12, a13⟩, ⟨a20, a21, a22, a23⟩,
    ⟨a30, a31, a32, a33⟩⟩ := a
  rw [cml_math_mat4_mul_exact]
  simp only [cml_math_mat4_det, mat4.get, mat4.row, simde__m256d.lane] at h
  simp only [cml_math_mat4_inverse, mat4.get, mat4.row, simde__m256d.lane, mat4.mk.injEq,
    simde__m256d.mk.injEq]
  have hv := mul_one_div_cancel h
  generalize (1 : ℚ) / _ = v at hv ⊢
  refine ⟨⟨?_, ?_, ?_, ?_⟩, ⟨?_, ?_, ?_, ?_⟩, ⟨?_, ?_, ?_, ?_⟩, ⟨?_, ?_, ?_, ?_⟩⟩
  · linear_combination hv
  · ring
  · ring
  · ring
  · ring
  · linear_combination hv
  · ring
  · ring
  · ring
  · ring
  · linear_combination hv
  · ring
  · ring
  · ring
  · ring
  · linear_combination hv

/-- The constructor `mat4(v1, v2, v3, v4)` of `sf_math.hpp` leaves `u` as it is
outside column 0 and puts `v4` in column 0. -/
theorem hpp_mat4_ofVec4_entries {T : Type} (u : SfMathHpp.mat4 T) (v1 v2 v3 v4 : SfMathHpp.vec4 T)
    (i j : Fin 4) :
    (SfMathHpp.mat4.ofVec4 u v1 v2 v3 v4).m i j = if j = 0 then v4.v i else u.m i j := by
  fin_cases i <;> fin_cases j <;> simp [SfMathHpp.mat4.ofVec4, SfMathHpp.mat4.set]

theorem cml_math_gcd_spec_eq_gcd (a b : Nat) : cml_math_gcd_spec a b = Nat.gcd a b := by
  induction b using Nat.strong_induction_on generalizing a with
  | _ b ih =>
    rw [cml_math_gcd_spec]
    by_cases hb : b = 0
    · simp [hb]
    · rw [if_neg hb, ih (a % b) (Nat.mod_lt a (Nat.pos_of_ne_zero hb)) b,
        Nat.gcd_comm b (a % b), ← Nat.gcd_rec, Nat.gcd_comm]

/-- Were a function `cml_math_gcd` that computes the greatest common divisor
declared, the macro would return the greatest common divisor. -/
theorem cml_math_gcd_expansion_of_gcd (a b : Nat) :
    cml_math_gcd_expansion (some Nat.gcd) a b = some (Nat.gcd a b) := by
  unfold cml_math_gcd_expansion
  by_cases hb : b = 0
  · simp [hb]
  · rw [if_neg hb, Option.map_some', Nat.gcd_comm b (a % b), ← Nat.gcd_rec, Nat.gcd_comm]

/-- On a lane whose top bit is clear the arithmetic shift is the logical one. -/
theorem sar64_of_lt {x : Nat} (hx : x < 2 ^ 63) (n : Nat) : sar64 x n = shr64 x n := by
  unfold sar64 shr64 i64_of_bits bits_of_i64
  rw [if_pos hx]
  have h1 : ((x : Int) >>> n) = ((x >>> n : Nat) : Int) := rfl
  rw [h1]
  have h2 : x >>> n < 2 ^ 64 := by
    rw [Nat.shiftRight_eq_div_pow]
    exact lt_of_le_of_lt (Nat.div_le_self x _) (by omega)
  have h3 : ((x >>> n : Nat) : Int) % 2 ^ 64 = ((x >>> n : Nat) : Int) :=
    Int.emod_eq_of_lt (by positivity) (by exact_mod_cast h2)
  rw [h3]
  simp

/-- Under GCC and Clang, `rotlx4` is the rotate on every lane whose top bit is
clear. -/
theorem rotlx4_lane_of_lt {x : Nat} (hx : x < 2 ^ 63) (k : Nat) : rotlx4_lane x k = rotl x k := by
  unfold rotlx4_lane rotl
  rw [sar64_of_lt hx]

/-- Under MSVC, `rotlx4` is the rotate on every lane. -/
theorem rotlx4_msvc (x : simde__m256i) (k : Nat) (hk : 0 < k) (hk64 : k < 64) :
    rotlx4 .msvc x k = ⟨rotl x.e0 k, rotl x.e1 k, rotl x.e2 k, rotl x.e3 k⟩ := by
  have h1 : ¬ k > 63 := by omega
  have h2 : ¬ 64 - k > 63 := by omega
  simp [rotlx4, simde_mm256_or_si256, simde_mm256_slli_epi64, simde_mm256_srli_epi64, h1, h2,
    simde__m256i.zip, simde__m256i.map, rotl]

/-! ## The claims: matrices, quaternions, `cml_math_gcd` and rotations -/

/-- C21 at `a = cml_math_mat4(1, ..., 16)` in exact arithmetic: the rows of
`cml_math_mat4_identity()` are, element 0 first, `(0,0,0,1)`, `(0,0,1,0)`,
`(0,1,0,0)`, `(1,0,0,0)`; multiplying `a` by it on the left gives the rows of
`a` in reverse order and on the right the elements of each row in reverse
order, neither of which is `a`. -/
theorem cml_math_mat4_identity_is_not_identity :
    cml_math_mat4_identity = ⟨⟨0, 0, 0, 1⟩, ⟨0, 0, 1, 0⟩, ⟨0, 1, 0, 0⟩, ⟨1, 0, 0, 0⟩⟩ ∧
      cml_math_mat4 1 2 3 4 5 6 7 8 9 10 11 12 13 14 15 16 =
        ⟨⟨4, 3, 2, 1⟩, ⟨8, 7, 6, 5⟩, ⟨12, 11, 10, 9⟩, ⟨16, 15, 14, 13⟩⟩ ∧
      cml_math_mat4_mul id cml_math_mat4_identity
          (cml_math_mat4 1 2 3 4 5 6 7 8 9 10 11 12 13 14 15 16) =
        ⟨⟨16, 15, 14, 13⟩, ⟨12, 11, 10, 9⟩, ⟨8, 7, 6, 5⟩, ⟨4, 3, 2, 1⟩⟩ ∧
      cml_math_mat4_mul id (cml_math_mat4 1 2 3 4 5 6 7 8 9 10 11 12 13 14 15 16)
          cml_math_mat4_identity =
        ⟨⟨1, 2, 3, 4⟩, ⟨5, 6, 7, 8⟩, ⟨9, 10, 11, 12⟩, ⟨13, 14, 15, 16⟩⟩ ∧
      cml_math_mat4_mul id cml_math_mat4_identity
          (cml_math_mat4 1 2 3 4 5 6 7 8 9 10 11 12 13 14 15 16) ≠
        cml_math_mat4 1 2 3 4 5 6 7 8 9 10 11 12 13 14 15 16 ∧
      cml_math_mat4_mul id (cml_math_mat4 1 2 3 4 5 6 7 8 9 10 11 12 13 14 15 16)
          cml_math_mat4_identity ≠
        cml_math_mat4 1 2 3 4 5 6 7 8 9 10 11 12 13 14 15 16 := by
  refine ⟨rfl, rfl, ?_, ?_, ?_, ?_⟩
  · rw [cml_math_mat4_identity_mul]
    rfl
  · rw [cml_math_mat4_mul_identity]
    rfl
  · rw [cml_math_mat4_identity_mul]
    intro h
    have h2 := congrArg (fun m : mat4 => m.m0.d0) h
    norm_num [cml_math_mat4, simde_mm256_set_pd] at h2
  · rw [cml_math_mat4_mul_identity]
    intro h
    have h2 := congrArg (fun m : mat4 => m.m0.d0) h
    norm_num [cml_math_mat4, simde_mm256_set_pd] at h2

/-- C22: in exact arithmetic, for every matrix `a` with `cml_math_mat4_det(a)`
nonzero, `cml_math_mat4_mul(a, cml_math_mat4_inverse(a))` and
`cml_math_mat4_mul(cml_math_mat4_inverse(a), a)` have entry `[i][j]` equal to 1
when `i = j` and to 0 otherwise. -/
theorem cml_math_mat4_inverse_two_sided (a : mat4) (h : cml_math_mat4_det a ≠ 0) :
    cml_math_mat4_mul id a (cml_math_mat4_inverse a) =
        ⟨⟨1, 0, 0, 0⟩, ⟨0, 1, 0, 0⟩, ⟨0, 0, 1, 0⟩, ⟨0, 0, 0, 1⟩⟩ ∧
      cml_math_mat4_mul id (cml_math_mat4_inverse a) a =
        ⟨⟨1, 0, 0, 0⟩, ⟨0, 1, 0, 0⟩, ⟨0, 0, 1, 0⟩, ⟨0, 0, 0, 1⟩⟩ :=
  ⟨cml_math_mat4_mul_inverse_exact a h, cml_math_mat4_inverse_mul_exact a h⟩

theorem cml_math_mat4_inverse_two_sided_witness :
    cml_math_mat4_det (cml_math_mat4 2 0 1 3 1 1 0 0 4 1 2 1 0 3 1 1) ≠ 0 ∧
      cml_math_mat4_mul id (cml_math_mat4 2 0 1 3 1 1 0 0 4 1 2 1 0 3 1 1)
          (cml_math_mat4_inverse (cml_math_mat4 2 0 1 3 1 1 0 0 4 1 2 1 0 3 1 1)) =
        ⟨⟨1, 0, 0, 0⟩, ⟨0, 1, 0, 0⟩, ⟨0, 0, 1, 0⟩, ⟨0, 0, 0, 1⟩⟩ ∧
      cml_math_mat4_mul id
          (cml_math_mat4_inverse (cml_math_mat4 2 0 1 3 1 1 0 0 4 1 2 1 0 3 1 1))
          (cml_math_mat4 2 0 1 3 1 1 0 0 4 1 2 1 0 3 1 1) =
        ⟨⟨1, 0, 0, 0⟩, ⟨0, 1, 0, 0⟩, ⟨0, 0, 1, 0⟩, ⟨0, 0, 0, 1⟩⟩ :=
  have h : cml_math_mat4_det (cml_math_mat4 2 0 1 3 1 1 0 0 4 1 2 1 0 3 1 1) ≠ 0 := by
    norm_num [cml_math_mat4_det, cml_math_mat4, simde_mm256_set_pd, mat4.get, mat4.row,
      simde__m256d.lane]
  ⟨h, cml_math_mat4_inverse_two_sided _ h⟩

/-- C23: in exact arithmetic `cml_math_mat4_det(a)` is the determinant of the
matrix of the entries `a.m[i][j]`; so is `sf_math_mat4_determinant`, and so is
the C++ member `determinant()` over every commutative ring `T`. -/
theorem mat4_det_eq_det (a : mat4) (d : SfMath.mat4) {T : Type} [CommRing T]
    (m : SfMathHpp.mat4 T) :
    cml_math_mat4_det a = a.toMatrix.det ∧
      SfMath.sf_math_mat4_determinant d = Matrix.det (Matrix.of d.m) ∧
      m.determinant = Matrix.det (Matrix.of m.m) := by
  refine ⟨?_, ?_, ?_⟩
  · rw [det_fin_four_expand]
    simp only [cml_math_mat4_det, mat4.toMatrix, Fin.val_zero, Fin.val_one, Fin.val_two,
      show ((3 : Fin 4) : ℕ) = 3 from rfl]
    ring
  · rw [det_fin_four_expand]
    simp only [SfMath.sf_math_mat4_determinant, Matrix.of_apply]
    ring
  · rw [det_fin_four_expand]
    simp only [SfMathHpp.mat4.determinant, Matrix.of_apply]
    ring

/-- C24 at the matrix `m` with rows `(1,0,1,0)`, `(0,1,0,0)`, `(0,0,1,1)`,
`(0,0,0,1)` over the rationals: `m.determinant()` is 1, and whatever the
uninitialised entries `u` of the local `inv` hold, entry `[0][0]` of
`m * m.inverse()` (and of `m / m`) is 0, where `m.identity()` has 1. -/
theorem hpp_mat4_inverse_wrong (u : SfMathHpp.mat4 ℚ) :
    (⟨![![1, 0, 1, 0], ![0, 1, 0, 0], ![0, 0, 1, 1], ![0, 0, 0, 1]]⟩ :
        SfMathHpp.mat4 ℚ).determinant = 1 ∧
      ((⟨![![1, 0, 1, 0], ![0, 1, 0, 0], ![0, 0, 1, 1], ![0, 0, 0, 1]]⟩ :
        SfMathHpp.mat4 ℚ).mul
          ((⟨![![1, 0, 1, 0], ![0, 1, 0, 0], ![0, 0, 1, 1], ![0, 0, 0, 1]]⟩ :
            SfMathHpp.mat4 ℚ).inverse u)).m 0 0 = 0 ∧
      ((⟨![![1, 0, 1, 0], ![0, 1, 0, 0], ![0, 0, 1, 1], ![0, 0, 0, 1]]⟩ :
        SfMathHpp.mat4 ℚ).div
          ⟨![![1, 0, 1, 0], ![0, 1, 0, 0], ![0, 0, 1, 1], ![0, 0, 0, 1]]⟩ u).m 0 0 = 0 ∧
      ((⟨![![1, 0, 1, 0], ![0, 1, 0, 0], ![0, 0, 1, 1], ![0, 0, 0, 1]]⟩ :
        SfMathHpp.mat4 ℚ).identity).m 0 0 = 1 := by
  have key : ((⟨![![1, 0, 1, 0], ![0, 1, 0, 0], ![0, 0, 1, 1], ![0, 0, 0, 1]]⟩ :
        SfMathHpp.mat4 ℚ).mul
          ((⟨![![1, 0, 1, 0], ![0, 1, 0, 0], ![0, 0, 1, 1], ![0, 0, 0, 1]]⟩ :
            SfMathHpp.mat4 ℚ).inverse u)).m 0 0 = 0 := by
    simp only [SfMathHpp.mat4.mul, SfMathHpp.mat4.inverse, SfMathHpp.mat4.mulScalar,
      hpp_mat4_ofVec4_entries, SfMathHpp.vec4.mul, SfMathHpp.vec4.sub, SfMathHpp.vec4.add,
      SfMathHpp.vec4.v]
    norm_num
  refine ⟨?_, key, key, ?_⟩
  · simp only [SfMathHpp.mat4.determinant]
    norm_num [Matrix.vecHead, Matrix.vecTail]
  · simp [SfMathHpp.mat4.identity, SfMathHpp.mat4.set]

/-- C25 at `a = b = (x, y, z, w) = (0, 1, 0, 0)`: the `w` of
`sf_math_quat_mul_quat(a, b)` and of the C++ `operator*` is 1, where the
Hamilton product has `w = -1`, the value that `sf_math_quat_cross_product`
returns. -/
theorem sf_math_quat_mul_quat_wrong :
    (SfMath.sf_math_quat_mul_quat { x := 0, y := 1, z := 0, w := 0 }
        { x := 0, y := 1, z := 0, w := 0 }).w = 1 ∧
      (SfMathHpp.quat.mul ({ w := 0, x := 0, y := 1, z := 0 } : SfMathHpp.quat ℚ)
        { w := 0, x := 0, y := 1, z := 0 }).w = 1 ∧
      (0 : ℚ) * 0 - 0 * 0 - 1 * 1 - 0 * 0 = -1 ∧
      (SfMath.sf_math_quat_cross_product { x := 0, y := 1, z := 0, w := 0 }
        { x := 0, y := 1, z := 0, w := 0 }).w = -1 := by
  refine ⟨?_, ?_, ?_, ?_⟩
  · norm_num [SfMath.sf_math_quat_mul_quat]
  · norm_num [SfMathHpp.quat.mul]
  · norm_num
  · norm_num [SfMath.sf_math_quat_cross_product]

/-- C26 at the quaternion `q` with elements `(1, 2, 3, 4)` in exact arithmetic:
`cml_math_quat_mul(q, cml_math_quat_identity())` has 5 in every element and
`cml_math_quat_mul(cml_math_quat_identity(), q)` has 3 in every element;
neither is `q`. -/
theorem cml_math_quat_identity_is_not_identity :
    cml_math_quat_mul id ⟨⟨1, 2, 3, 4⟩⟩ cml_math_quat_identity = ⟨⟨5, 5, 5, 5⟩⟩ ∧
      cml_math_quat_mul id cml_math_quat_identity ⟨⟨1, 2, 3, 4⟩⟩ = ⟨⟨3, 3, 3, 3⟩⟩ ∧
      (⟨⟨5, 5, 5, 5⟩⟩ : quat) ≠ ⟨⟨1, 2, 3, 4⟩⟩ ∧ (⟨⟨3, 3, 3, 3⟩⟩ : quat) ≠ ⟨⟨1, 2, 3, 4⟩⟩ := by
  refine ⟨?_, ?_, ?_, ?_⟩
  · simp only [cml_math_quat_mul, cml_math_quat_identity, simde_mm256_set_pd,
      simde_mm256_permute4x64_pd, simde_mm256_add_pd, simde_mm256_mul_pd, simde__m256d.lane, id]
    norm_num
  · simp only [cml_math_quat_mul, cml_math_quat_identity, simde_mm256_set_pd,
      simde_mm256_permute4x64_pd, simde_mm256_add_pd, simde_mm256_mul_pd, simde__m256d.lane, id]
    norm_num
  · intro h
    have h2 := congrArg (fun x : quat => x.q.d0) h
    norm_num at h2
  · intro h
    have h2 := congrArg (fun x : quat => x.q.d0) h
    norm_num at h2

/-- C27 fails: the macro `cml_math_gcd(a, b)` of `cml.h` 725-726 does not
recurse.  Its replacement is one conditional whose false branch calls a
function `cml_math_gcd` that the program does not declare, so for every `a` and
every non-zero `b` it yields no value, where the recursion that its text
states returns the greatest common divisor: at `(4, 6)` no value against 2. -/
theorem cml_math_gcd_does_not_recurse (a b : Nat) :
    (cml_math_gcd a (b + 1) = none ∧
      cml_math_gcd_spec a (b + 1) = Nat.gcd a (b + 1)) ∧
    (cml_math_gcd 4 6 = none ∧ cml_math_gcd_spec 4 6 = 2) := by
  refine ⟨⟨?_, cml_math_gcd_spec_eq_gcd a (b + 1)⟩, ?_, ?_⟩
  · simp [cml_math_gcd, cml_math_gcd_expansion]
  · simp [cml_math_gcd, cml_math_gcd_expansion]
  · rw [cml_math_gcd_spec_eq_gcd]
    decide

/-- C28: for every two-lane vector `x` and every `k` with `0 < k < 64`, lane `i`
of `rotlx2(x, k)` is `rotl(x[i], k)`: each lane of the result is a function of
the same lane of `x` alone. -/
theorem rotlx2_is_rotl_per_lane (x : simde__m128i) (k : Nat) (hk : 0 < k) (hk64 : k < 64) :
    rotlx2 x k = ⟨rotl x.e0 k, rotl x.e1 k⟩ := by
  have h1 : k % U64_SIZE = k := Nat.mod_eq_of_lt (by unfold U64_SIZE; omega)
  have h2 : (64 - k) % U64_SIZE = 64 - k := Nat.mod_eq_of_lt (by unfold U64_SIZE; omega)
  have h3 : ¬ k > 63 := by omega
  have h4 : ¬ 64 - k > 63 := by omega
  simp [rotlx2, simde_mm_set_epi64x, simde_mm_or_si128, simde_mm_sll_epi64, simde_mm_srl_epi64,
    h1, h2, h3, h4, rotl]

theorem rotlx2_is_rotl_per_lane_witness :
    (0 < 45 ∧ 45 < 64) ∧
      rotlx2 ⟨0x8000000000000005, 12345⟩ 45 =
        ⟨rotl 0x8000000000000005 45, rotl 12345 45⟩ :=
  ⟨by decide, rotlx2_is_rotl_per_lane ⟨0x8000000000000005, 12345⟩ 45 (by decide) (by decide)⟩

/-- C29 at `x = {2^63, 1, 2^63 + 5, 0}`, `k = 45`: under GCC and Clang lanes 0 and
2 of `rotlx4(x, 45)` are both `0xFFFFF00000000000`, where `rotl` gives `2^44`
and `2^44 + 5 * 2^45`; under MSVC every lane is the rotate. -/
theorem rotlx4_gnuc_sign_extends :
    rotlx4 .gnuc ⟨2 ^ 63, 1, 2 ^ 63 + 5, 0⟩ 45 =
        ⟨0xFFFFF00000000000, 2 ^ 45, 0xFFFFF00000000000, 0⟩ ∧
      (rotl (2 ^ 63) 45 = 2 ^ 44 ∧ rotl 1 45 = 2 ^ 45 ∧
        rotl (2 ^ 63 + 5) 45 = 2 ^ 44 + 5 * 2 ^ 45 ∧ rotl 0 45 = 0) ∧
      (rotlx4 .gnuc ⟨2 ^ 63, 1, 2 ^ 63 + 5, 0⟩ 45).lane 0 ≠ rotl (2 ^ 63) 45 ∧
      rotlx4 .msvc ⟨2 ^ 63, 1, 2 ^ 63 + 5, 0⟩ 45 =
        ⟨rotl (2 ^ 63) 45, rotl 1 45, rotl (2 ^ 63 + 5) 45, rotl 0 45⟩ := by
  decide

/-- C30: for every `u64` `x`, every `k` with `0 < k < 64` and every `i < 64`, bit
`(i + k) mod 64` of `rotl(x, k)` is bit `i` of `x`. -/
theorem rotl_moves_bit (x k i : Nat) (hx : x < 2 ^ 64) (hk : 0 < k) (hk64 : k < 64)
    (hi : i < 64) : (rotl x k).testBit ((i + k) % 64) = x.testBit i := by
  rw [testBit_rotl hx hk64]
  by_cases h : i + k < 64
  · have e : (i + k) % 64 = i + k := Nat.mod_eq_of_lt h
    have h1 : ¬ (i + k < k) := by omega
    simp [e, h1, h]
  · have e : (i + k) % 64 = i + k - 64 := by omega
    have h1 : i + k - 64 < k := by omega
    have e2 : i + k - 64 + 64 - k = i := by omega
    simp [e, h1, e2]

theorem rotl_moves_bit_witness :
    (0x8000000000000001 < 2 ^ 64 ∧ 0 < 7 ∧ 7 < 64 ∧ 63 < 64) ∧
      (rotl 0x8000000000000001 7).testBit ((63 + 7) % 64) =
        Nat.testBit 0x8000000000000001 63 :=
  ⟨by decide, rotl_moves_bit 0x8000000000000001 7 63 (by decide) (by decide) (by decide)
    (by decide)⟩

/-! ## Lanes and shift counts -/

theorem shl64_checked_eq_some_iff (x k y : Nat) :
    shl64_checked x k = some y ↔ (0 < k ∧ k < 64) ∧ y = shl64 x k := by
  unfold shl64_checked shift_ok
  by_cases h : 0 < k ∧ k < 64
  · simp [h, eq_comm]
  · simp [h]

theorem shr64_checked_eq_some_iff (x k y : Nat) :
    shr64_checked x k = some y ↔ (0 < k ∧ k < 64) ∧ y = shr64 x k := by
  unfold shr64_checked shift_ok
  by_cases h : 0 < k ∧ k < 64
  · simp [h, eq_comm]
  · simp [h]

theorem rotl_checked_eq_some_iff (x k y : Nat) :
    rotl_checked x k = some y ↔ (0 < k ∧ k < 64) ∧ y = rotl x k := by
  unfold rotl_checked shl64_checked shr64_checked shift_ok rotl
  by_cases h : 0 < k ∧ k < 64
  · have h2 : 0 < 64 - k ∧ 64 - k < 64 := by omega
    simp [h, h2, eq_comm]
  · have h3 : ¬ (0 < k ∧ k < 64) := h
    simp [h3]

theorem randx2_lane_zero (s t : Seedx2) (h : s.lane 0 = t.lane 0) :
    (cml_math_randx2 s).1.lane 0 = (cml_math_randx2 t).1.lane 0 ∧
    (cml_math_randx2 s).2.lane 0 = (cml_math_randx2 t).2.lane 0 := by
  simp only [Seedx2.lane, simde__m128i.lane, Prod.mk.injEq] at h
  obtain ⟨ha, hb⟩ := h
  simp [cml_math_randx2, randx2_step, rotlx2, simde_mm_mul_epu32, simde_mm_set_epi64x,
    simde_mm_slli_epi64, simde_mm_sll_epi64, simde_mm_srl_epi64, simde_mm_xor_si128,
    simde_mm_or_si128, Seedx2.lane, simde__m128i.lane, U64_SIZE, ha, hb]

theorem randx2_lane_one (s t : Seedx2) (i : Nat) (h : s.lane (i + 1) = t.lane (i + 1)) :
    (cml_math_randx2 s).1.lane (i + 1) = (cml_math_randx2 t).1.lane (i + 1) ∧
    (cml_math_randx2 s).2.lane (i + 1) = (cml_math_randx2 t).2.lane (i + 1) := by
  simp only [Seedx2.lane, simde__m128i.lane, Prod.mk.injEq] at h
  obtain ⟨ha, hb⟩ := h
  simp [cml_math_randx2, randx2_step, rotlx2, simde_mm_mul_epu32, simde_mm_set_epi64x,
    simde_mm_slli_epi64, simde_mm_sll_epi64, simde_mm_srl_epi64, simde_mm_xor_si128,
    simde_mm_or_si128, Seedx2.lane, simde__m128i.lane, U64_SIZE, ha, hb]

theorem randx4_lane (c : Compiler) (s t : Seedx4) (j : Nat) (h : s.lane j = t.lane j) :
    (cml_math_randx4 c s).1.lane j = (cml_math_randx4 c t).1.lane j ∧
    (cml_math_randx4 c s).2.lane j = (cml_math_randx4 c t).2.lane j := by
  simp only [Seedx4.lane, Seed.mk.injEq] at h
  obtain ⟨h0, h1, h2, h3⟩ := h
  match j, h0, h1, h2, h3 with
  | 0, h0, h1, h2, h3 =>
    simp only [simde__m256i.lane] at h0 h1 h2 h3
    cases c <;>
    simp [cml_math_randx4, randx4_step, rotlx4, simde_mm256_add_epi64, simde_mm256_xor_si256,
      simde_mm256_or_si256, simde_mm256_slli_epi64, simde_mm256_srli_epi64, simde__m256i.zip,
      simde__m256i.map, Seedx4.lane, simde__m256i.lane, h0, h1, h2, h3]
  | 1, h0, h1, h2, h3 =>
    simp only [simde__m256i.lane] at h0 h1 h2 h3
    cases c <;>
    simp [cml_math_randx4, randx4_step, rotlx4, simde_mm256_add_epi64, simde_mm256_xor_si256,
      simde_mm256_or_si256, simde_mm256_slli_epi64, simde_mm256_srli_epi64, simde__m256i.zip,
      simde__m256i.map, Seedx4.lane, simde__m256i.lane, h0, h1, h2, h3]
  | 2, h0, h1, h2, h3 =>
    simp only [simde__m256i.lane] at h0 h1 h2 h3
    cases c <;>
    simp [cml_math_randx4, randx4_step, rotlx4, simde_mm256_add_epi64, simde_mm256_xor_si256,
      simde_mm256_or_si256, simde_mm256_slli_epi64, simde_mm256_srli_epi64, simde__m256i.zip,
      simde__m256i.map, Seedx4.lane, simde__m256i.lane, h0, h1, h2, h3]
  | n + 3, h0, h1, h2, h3 =>
    simp only [simde__m256i.lane] at h0 h1 h2 h3
    cases c <;>
    simp [cml_math_randx4, randx4_step, rotlx4, simde_mm256_add_epi64, simde_mm256_xor_si256,
      simde_mm256_or_si256, simde_mm256_slli_epi64, simde_mm256_srli_epi64, simde__m256i.zip,
      simde__m256i.map, Seedx4.lane, simde__m256i.lane, h0, h1, h2, h3]

theorem rotlx4_lane_checked_eq_some_iff (x k y : Nat) :
    rotlx4_lane_checked x k = some y ↔ (0 < k ∧ k < 64) ∧ y = rotlx4_lane x k := by
  unfold rotlx4_lane_checked shl64_checked sar64_checked shift_ok rotlx4_lane
  by_cases h : 0 < k ∧ k < 64
  · have h2 : 0 < 64 - k ∧ 64 - k < 64 := by omega
    simp [h, h2, eq_comm]
  · have h3 : ¬ (0 < k ∧ k < 64) := h
    simp [h3]

/-- C31: for N in {2, 4} and every lane below N, two states of width N that
hold the same words in that lane of every element of the state give, after one
call of `cml_math_randx2` or `cml_math_randx4` (under either body of
`rotlx4`), raw outputs that agree in that lane and new states that agree in
that lane of every element, whatever the other lanes hold. -/
theorem rand_lanes_do_not_interfere (c : Compiler) (i j : Nat) (hi : i < 2) (hj : j < 4)
    (s t : Seedx2) (u v : Seedx4)
    (h2 : s.lane i = t.lane i) (h4 : u.lane j = v.lane j) :
    ((cml_math_randx2 s).1.lane i = (cml_math_randx2 t).1.lane i ∧
      (cml_math_randx2 s).2.lane i = (cml_math_randx2 t).2.lane i) ∧
    ((cml_math_randx4 c u).1.lane j = (cml_math_randx4 c v).1.lane j ∧
      (cml_math_randx4 c u).2.lane j = (cml_math_randx4 c v).2.lane j) := by
  have hj4 : j < 4 := hj
  refine ⟨?_, randx4_lane c u v j h4⟩
  match i, hi, h2 with
  | 0, _, h2 => exact randx2_lane_zero s t h2
  | n + 1, _, h2 => exact randx2_lane_one s t n h2

theorem rand_lanes_do_not_interfere_witness :
    (Seedx2.lane seedx2 1 = Seedx2.lane ⟨⟨77, 2⟩, ⟨99, 4⟩⟩ 1 ∧
      Seedx4.lane seedx4 2 =
        Seedx4.lane ⟨⟨10, 20, 3, 40⟩, ⟨50, 60, 7, 80⟩, ⟨90, 100, 11, 120⟩,
          ⟨130, 140, 15, 160⟩⟩ 2) ∧
    (((cml_math_randx2 seedx2).1.lane 1 =
        (cml_math_randx2 ⟨⟨77, 2⟩, ⟨99, 4⟩⟩).1.lane 1 ∧
      (cml_math_randx2 seedx2).2.lane 1 =
        (cml_math_randx2 ⟨⟨77, 2⟩, ⟨99, 4⟩⟩).2.lane 1) ∧
    ((cml_math_randx4 .gnuc seedx4).1.lane 2 =
        (cml_math_randx4 .gnuc ⟨⟨10, 20, 3, 40⟩, ⟨50, 60, 7, 80⟩, ⟨90, 100, 11, 120⟩,
          ⟨130, 140, 15, 160⟩⟩).1.lane 2 ∧
      (cml_math_randx4 .gnuc seedx4).2.lane 2 =
        (cml_math_randx4 .gnuc ⟨⟨10, 20, 3, 40⟩, ⟨50, 60, 7, 80⟩, ⟨90, 100, 11, 120⟩,
          ⟨130, 140, 15, 160⟩⟩).2.lane 2)) :=
  ⟨⟨by decide, by decide⟩,
    rand_lanes_do_not_interfere .gnuc 1 2 (by decide) (by decide) seedx2 ⟨⟨77, 2⟩, ⟨99, 4⟩⟩
      seedx4 ⟨⟨10, 20, 3, 40⟩, ⟨50, 60, 7, 80⟩, ⟨90, 100, 11, 120⟩, ⟨130, 140, 15, 160⟩⟩
      (by decide) (by decide)⟩

end Cml
